import Mathlib

/-!
Verification of the water-chemistry calculation core
(`uffed78/water-chemistry-api`), shallowly embedded in Lean 4.

All JavaScript numbers on the verified code paths are embedded as `ℚ`
(the code only adds, subtracts, multiplies, divides, rounds, clamps and
compares), except for the advanced pH model, which uses `Math.pow`,
`Math.exp` and `Math.sqrt` and is embedded over `ℝ`.

JavaScript division by zero yields a non-finite double (`Infinity` or
`NaN`).  Wherever a division by zero is reachable in the source, the
embedding makes the outcome explicit instead of relying on Lean's
`x / 0 = 0` convention: the legacy PPM function returns `Option ℚ`
(`none` = non-finite), and the pH estimators case-split on the sign of
the numerator exactly as the IEEE values would propagate through the
downstream `Math.max`/`Math.min` clamps (`+∞` clamps to the upper bound,
`-∞` to the lower bound, `NaN` propagates and is modelled as `none`).
-/

namespace WaterChem

/-- JS `Math.round`: round half toward positive infinity. -/
def jsRound (x : ℚ) : ℚ := (⌊x + 1/2⌋ : ℤ)

/-- `Math.round(x * 10) / 10`, the one-decimal rounding used throughout. -/
def roundTenth (x : ℚ) : ℚ := ((⌊x * 10 + 1/2⌋ : ℤ) : ℚ) / 10

/-- `Math.max(4.5, Math.min(6.5, x))`, the pH clamp of the simple and Kaiser models. -/
def clampPH (x : ℚ) : ℚ := max 4.5 (min 6.5 x)

/-- A value is a whole number of tenths of a gram. -/
def IsTenth (v : ℚ) : Prop := ∃ k : ℤ, v = (k : ℚ) / 10

/-- The `WaterProfile` record of `core/types.ts` (models variant): six required
ion concentrations in mg/L plus an optional carbonate field. -/
structure WaterProfile where
  calcium : ℚ
  magnesium : ℚ
  sodium : ℚ
  sulfate : ℚ
  chloride : ℚ
  bicarbonate : ℚ
  carbonate : Option ℚ := none
deriving DecidableEq

/-- The `Volumes` record: total, mash and sparge liters. -/
structure Volumes where
  total : ℚ
  mash : ℚ
  sparge : ℚ
deriving DecidableEq

/-- `Partial<Volumes>` as accepted by the v2 `calculatePPM`. -/
structure PartialVolumes where
  total : Option ℚ := none
  mash : Option ℚ := none
  sparge : Option ℚ := none
deriving DecidableEq

/-- `VolumeMode = 'total' | 'mash' | 'staged'`. -/
inductive VolumeMode where
  | total
  | mash
  | staged
deriving DecidableEq

/-- The optional salt location used by staged mode. -/
inductive SaltLocation where
  | mash
  | sparge
  | boil
deriving DecidableEq, BEq

/-- Ion identifiers, in the field order of `ionsPPMPerGram` object literals. -/
inductive Ion where
  | calcium
  | magnesium
  | sodium
  | sulfate
  | chloride
  | bicarbonate
  | carbonate
deriving DecidableEq, BEq

/-- `SaltDefinition` of `core/constants.ts`: the ion yields are kept as an
association list in the insertion order of the object literal, because the
code iterates them with `Object.entries`. -/
structure SaltDef where
  formula : String
  molarMass : ℚ
  ions : List (Ion × ℚ)
deriving DecidableEq

/-- The `SALTS` catalog of `core/constants.ts`, in declaration order. -/
def SALTS : List (String × SaltDef) :=
  [ ("gypsum", ⟨"CaSO4.2H2O", 172.17, [(.calcium, 232.5), (.sulfate, 557.7)]⟩),
    ("calcium_chloride", ⟨"CaCl2.2H2O", 147.01, [(.calcium, 272.6), (.chloride, 482.3)]⟩),
    ("epsom_salt", ⟨"MgSO4.7H2O", 246.47, [(.magnesium, 98.6), (.sulfate, 389.6)]⟩),
    ("magnesium_chloride", ⟨"MgCl2.6H2O", 203.30, [(.magnesium, 119.5), (.chloride, 348.7)]⟩),
    ("sodium_chloride", ⟨"NaCl", 58.44, [(.sodium, 393.4), (.chloride, 606.6)]⟩),
    ("baking_soda", ⟨"NaHCO3", 84.01, [(.sodium, 273.7), (.bicarbonate, 726.3)]⟩),
    ("calcium_carbonate", ⟨"CaCO3", 100.09, [(.calcium, 400.4), (.carbonate, 599.6)]⟩),
    ("calcium_hydroxide", ⟨"Ca(OH)2", 74.09, [(.calcium, 541.0)]⟩),
    ("sodium_bicarbonate", ⟨"NaHCO3", 84.01, [(.sodium, 273.7), (.bicarbonate, 726.3)]⟩) ]

/-- `SALTS[saltName]`: catalog lookup by identifier. -/
def findSalt (n : String) : Option SaltDef :=
  (SALTS.find? (fun p => p.1 == n)).map (fun p => p.2)

/-- `salt.ionsPPMPerGram.X || 0`: yield of one ion, defaulting to 0. -/
def SaltDef.getIon (s : SaltDef) (i : Ion) : ℚ :=
  ((s.ions.find? (fun p => p.1 == i)).map (fun p => p.2)).getD 0

end WaterChem

namespace WaterChem.V1

/-! The legacy PPM calculator, `src/models/water/ppm-calculator.ts`. -/

/-- The `switch(volumeMode)` of `calculatePPM`: select the effective volume. -/
def effectiveVolume (v : Volumes) (mode : VolumeMode) (loc : Option SaltLocation) : ℚ :=
  match mode with
  | .mash => v.mash
  | .staged =>
      match loc with
      | some .mash => v.mash
      | some .sparge => v.sparge
      | _ => v.total
  | .total => v.total

/-- The raw arithmetic `(saltGrams / effectiveVolume) * ionsPPMPerGram`.
Note the Lean convention `x / 0 = 0`; `calculatePPM` below records where
the JS code would instead produce a non-finite double. -/
def ppmValue (g y : ℚ) (v : Volumes) (mode : VolumeMode) (loc : Option SaltLocation) : ℚ :=
  (g / effectiveVolume v mode loc) * y

/-- `calculatePPM` of `ppm-calculator.ts`.  The source divides by the
effective volume with no zero guard, so a zero effective volume yields a
non-finite double (`Infinity`, or `NaN` when the grams are also zero),
modelled as `none`. -/
def calculatePPM (g y : ℚ) (v : Volumes) (mode : VolumeMode) (loc : Option SaltLocation) :
    Option ℚ :=
  if effectiveVolume v mode loc = 0 then none else some (ppmValue g y v mode loc)

/-- One `result.<ion> += ppmToAdd` statement of the composer's inner loop. -/
def addIon (w : WaterProfile) (i : Ion) (ppm : ℚ) : WaterProfile :=
  match i with
  | .calcium => { w with calcium := w.calcium + ppm }
  | .magnesium => { w with magnesium := w.magnesium + ppm }
  | .sodium => { w with sodium := w.sodium + ppm }
  | .sulfate => { w with sulfate := w.sulfate + ppm }
  | .chloride => { w with chloride := w.chloride + ppm }
  | .bicarbonate => { w with bicarbonate := w.bicarbonate + ppm }
  | .carbonate => { w with carbonate := some (w.carbonate.getD 0 + ppm) }

/-- The inner `for (const [ion, ppmPerGram] of Object.entries(salt.ionsPPMPerGram))`
loop of `calculateWaterProfileFromSalts`, applied to the running result. -/
def applySaltIons (res : WaterProfile) (salt : SaltDef) (g : ℚ) (v : Volumes)
    (mode : VolumeMode) (loc : Option SaltLocation) : WaterProfile :=
  salt.ions.foldl (fun acc p => addIon acc p.1 (ppmValue g p.2 v mode loc)) res

/-- One iteration of the composer's outer loop.  The state is the pair of the
two heap objects in scope, `(sourceWater, result)`: every write in the source
targets `result`, which the pair makes checkable. -/
def composeStep (v : Volumes) (mode : VolumeMode) (locs : String → Option SaltLocation)
    (st : WaterProfile × WaterProfile) (entry : String × ℚ) :
    WaterProfile × WaterProfile :=
  if entry.2 = 0 then st
  else
    match findSalt entry.1 with
    | none => st
    | some salt => (st.1, applySaltIons st.2 salt entry.2 v mode (locs entry.1))

/-- `calculateWaterProfileFromSalts`: start from the copy
`result = { ...sourceWater }` and fold the additions. -/
def calculateWaterProfileFromSalts (src : WaterProfile) (adds : List (String × ℚ))
    (v : Volumes) (mode : VolumeMode) (locs : String → Option SaltLocation) : WaterProfile :=
  (adds.foldl (composeStep v mode locs) (src, src)).2

/-- `calculateResidualAlkalinity` of `ppm-calculator.ts`:
alkalinity as CaCO3 is `bicarbonate * 50 / 61`, with no carbonate term. -/
def calculateResidualAlkalinity (w : WaterProfile) : ℚ :=
  let alkalinity := w.bicarbonate * 50 / 61
  alkalinity - (w.calcium / 1.4 + w.magnesium / 1.7)

end WaterChem.V1

namespace WaterChem.Engine

/-! `WaterChemistryEngine.calculateResidualAlkalinity` of `core/calculations.ts`. -/

/-- Kolbach residual alkalinity with the engine's constants and its final
rounding to one decimal. -/
def calculateResidualAlkalinity (w : WaterProfile) : ℚ :=
  let alkalinityAsCaCO3 := w.bicarbonate * 0.82 + (w.carbonate.getD 0) * 1.67
  let RA := alkalinityAsCaCO3 - (w.calcium / 1.4) - (w.magnesium / 1.7)
  roundTenth RA

end WaterChem.Engine

namespace WaterChem.V2

/-! The v2 PPM calculator, `src/v2/calculations/ppm.ts`. -/

/-- Effective-volume selection with the `??` default chains of the v2 code. -/
def effectiveVolume (v : PartialVolumes) (mode : VolumeMode) (loc : Option SaltLocation) : ℚ :=
  match mode with
  | .mash => (v.mash.getD (v.total.getD 0))
  | .staged =>
      match loc with
      | some .mash => v.mash.getD 0
      | some .sparge => v.sparge.getD 0
      | _ => v.total.getD 0
  | .total => v.total.getD 0

/-- v2 `calculatePPM`: `if (!effectiveVolume || !ionsPPMPerGram || !saltGrams) return 0`
(JS falsiness on a rational number is equality with 0), else the division. -/
def calculatePPM (g y : ℚ) (v : PartialVolumes) (mode : VolumeMode)
    (loc : Option SaltLocation) : ℚ :=
  let ev := effectiveVolume v mode loc
  if ev = 0 ∨ y = 0 ∨ g = 0 then 0 else (g / ev) * y

end WaterChem.V2

namespace WaterChem

/-- Grain categories of the models' `GrainBillItem` (`core/types.ts`, second
variant, with `'wheat'` included). -/
inductive GrainType where
  | base
  | crystal
  | roasted
  | acidulated
  | wheat
deriving DecidableEq

/-- `GrainBillItem`: name, weight (kg), color (EBC) and category. -/
structure GrainBillItem where
  name : String
  weight : ℚ
  color : ℚ
  grainType : GrainType
deriving DecidableEq

/-- `grainBill.reduce((sum, grain) => sum + grain.weight, 0)`. -/
def totalWeight (bill : List GrainBillItem) : ℚ :=
  bill.foldl (fun s g => s + g.weight) 0

end WaterChem

namespace WaterChem.SimpleModel

/-! The simple pH model, `src/models/ph/simple.ts`. -/

/-- `calculateDistilledWaterPH`: weighted color and per-type penalties from a
base of 5.72, clamped. -/
def calculateDistilledWaterPH (bill : List GrainBillItem) : ℚ :=
  let tw := totalWeight bill
  if tw = 0 then 5.7
  else
    let weightedColor := bill.foldl (fun s g => s + g.color * g.weight / tw) 0
    let basePH := bill.foldl
      (fun p g =>
        let proportion := g.weight / tw
        match g.grainType with
        | .roasted => p - proportion * 0.3
        | .crystal => p - proportion * 0.15
        | .acidulated => p - proportion * 1.0
        | .wheat => p + proportion * 0.05
        | .base => p) 5.72
    clampPH (basePH - weightedColor * 0.002)

/-- The arithmetic of `calculateRAPHShift` for a nonzero mash thickness:
`RA * 0.003 * (3.0 / mashThickness)`. -/
def raPHShift (ra thickness : ℚ) : ℚ :=
  ra * 0.003 * (3 / thickness)

/-- `calculateSimplePH`.  For a nonzero mash thickness this is the clamped
`distilledWaterPH + raShift`.  For thickness 0 the JS code computes
`3.0 / 0 = Infinity`, so the shift is `±Infinity` (clamped to 6.5 / 4.5 by
`Math.max`/`Math.min`) when the residual alkalinity is nonzero, and `NaN`
(which the clamp propagates) when it is zero — modelled as `none`. -/
def calculateSimplePH (src : WaterProfile) (bill : List GrainBillItem) (thickness : ℚ) :
    Option ℚ :=
  let distilledWaterPH := calculateDistilledWaterPH bill
  let ra := V1.calculateResidualAlkalinity src
  if thickness ≠ 0 then some (clampPH (distilledWaterPH + raPHShift ra thickness))
  else if ra > 0 then some 6.5
  else if ra < 0 then some 4.5
  else none

/-- `calculateAcidNeeded` of `simple.ts`, returning
`(lacticAcid88, phosphoric85)` in ml. -/
def calculateAcidNeeded (currentPH targetPH alkalinity mashVolume : ℚ) : ℚ × ℚ :=
  if currentPH ≤ targetPH then (0, 0)
  else
    let phDrop := currentPH - targetPH
    let mEqNeeded := (alkalinity * 0.02 + phDrop * 50) * mashVolume
    (mEqNeeded / 11.8, mEqNeeded / 25.6)

end WaterChem.SimpleModel

namespace WaterChem.KaiserModel

/-! The Kaiser pH model, `src/models/ph/kaiser.ts`. -/

/-- `getMaltBufferCapacity` (every switch branch overwrites the initial
`BASE_MALT_BUFFER`, and the switch covers all five categories). -/
def getMaltBufferCapacity (g : GrainBillItem) : ℚ :=
  match g.grainType with
  | .base => 30 + min (g.color * 0.5) 10
  | .crystal => 40 + min (g.color * 0.1) 15
  | .roasted => 55 + min (g.color * 0.05) 30
  | .acidulated => -35
  | .wheat => 35

/-- `getMaltAcidity`, with the EBC→Lovibond conversion `color / 1.97`. -/
def getMaltAcidity (g : GrainBillItem) : ℚ :=
  let lovibond := g.color / 1.97
  match g.grainType with
  | .base => lovibond * 0.1
  | .crystal => 0.45 * lovibond + 6
  | .roasted => 0.3 * lovibond + 15
  | .acidulated => 150
  | .wheat => lovibond * 0.1

/-- `calculateEffectiveAlkalinity`. -/
def calculateEffectiveAlkalinity (w : WaterProfile) : ℚ :=
  w.bicarbonate * 50 / 61 - w.calcium * 0.04 - w.magnesium * 0.03

/-- `temperatureCorrection` with `TEMP_CORRECTION_FACTOR = 0.003`. -/
def temperatureCorrection (ph temp : ℚ) : ℚ :=
  ph - (temp - 25) * 0.003

/-- `calculateKaiserPH`.  An empty-weight grain bill returns 5.4.  When the
weighted average buffer capacity is nonzero the result is the clamped,
temperature-corrected `5.7 + netCharge / avgBufferCapacity`.  When it is zero
the JS division gives `±Infinity` (clamped to 6.5 / 4.5) for a nonzero net
charge and `NaN` (propagated by the clamp) for a zero net charge — modelled
as `none`. -/
def calculateKaiserPH (src : WaterProfile) (bill : List GrainBillItem)
    (thickness temp : ℚ) : Option ℚ :=
  let tw := totalWeight bill
  if tw = 0 then some 5.4
  else
    let totalBufferCapacity := bill.foldl (fun s g => s + getMaltBufferCapacity g * g.weight) 0
    let totalAcidity := bill.foldl (fun s g => s + getMaltAcidity g * g.weight) 0
    let avgBufferCapacity := totalBufferCapacity / tw
    let effectiveAlkalinity := calculateEffectiveAlkalinity src
    let alkalinityMEq := effectiveAlkalinity * 0.02
    let waterChargePerKg := alkalinityMEq * thickness
    let maltChargePerKg := totalAcidity / tw
    let netCharge := waterChargePerKg - maltChargePerKg
    if avgBufferCapacity ≠ 0 then
      some (clampPH (temperatureCorrection (5.7 + netCharge / avgBufferCapacity) temp))
    else if netCharge > 0 then some 6.5
    else if netCharge < 0 then some 4.5
    else none

/-- `calculateKaiserAcidAdditions`, returning
`(lacticAcid88, phosphoric85, citric)`. -/
def calculateKaiserAcidAdditions (currentPH targetPH : ℚ) (bill : List GrainBillItem)
    (_mashVolume : ℚ) : ℚ × ℚ × ℚ :=
  if currentPH ≤ targetPH then (0, 0, 0)
  else
    let totalBufferCapacity := bill.foldl (fun s g => s + getMaltBufferCapacity g * g.weight) 0
    let deltaPH := currentPH - targetPH
    let mEqNeeded := totalBufferCapacity * deltaPH
    (mEqNeeded / 11.8, mEqNeeded / 25.6, mEqNeeded / 70)

end WaterChem.KaiserModel

namespace WaterChem.AdvancedModel

/-! The advanced pH model, `src/models/ph/advanced.ts`, embedded over `ℝ`
because it uses `Math.pow` with non-integer exponents and `Math.exp`.
The activity coefficients computed in `solveCarbonateSystem` are dead code
(never read), so `calculateActivityCoefficient` is not needed. -/

noncomputable section

/-- `Math.pow(10, x)`. -/
def pow10 (x : ℝ) : ℝ := (10 : ℝ) ^ x

/-- `temperatureCorrectPKa` with the default `deltaH = 0` used at every call
site: the linear approximation `pKa25 - 0.003 * (temperature - 25)`. -/
def temperatureCorrectPKa (pKa25 temp : ℝ) : ℝ := pKa25 - 0.003 * (temp - 25)

/-- `calculateIonicStrength` (computed and passed along, but its consumers
never read it — kept for faithfulness). -/
def calculateIonicStrength (w : WaterProfile) : ℚ :=
  let calcium := w.calcium / 40.08 / 1000
  let magnesium := w.magnesium / 24.31 / 1000
  let sodium := w.sodium / 22.99 / 1000
  let sulfate := w.sulfate / 96.06 / 1000
  let chloride := w.chloride / 35.45 / 1000
  let bicarbonate := w.bicarbonate / 61.02 / 1000
  0.5 * (calcium * 4 + magnesium * 4 + sodium * 1 + sulfate * 4 + chloride * 1 + bicarbonate * 1)

/-- Result of `solveCarbonateSystem`. -/
structure CarbSpecies where
  H2CO3 : ℝ
  HCO3 : ℝ
  CO3 : ℝ

/-- `solveCarbonateSystem` (the `ionicStrength` argument is unused in the
source as well: the computed activity coefficients are never read). -/
def solveCarbonateSystem (pH totalCarbonate _ionicStrength temp : ℝ) : CarbSpecies :=
  let pKa1 := temperatureCorrectPKa 6.35 temp
  let pKa2 := temperatureCorrectPKa 10.33 temp
  let Ka1 := pow10 (-pKa1)
  let Ka2 := pow10 (-pKa2)
  let H := pow10 (-pH)
  let alpha0 := H * H / (H * H + H * Ka1 + Ka1 * Ka2)
  let alpha1 := H * Ka1 / (H * H + H * Ka1 + Ka1 * Ka2)
  let alpha2 := Ka1 * Ka2 / (H * H + H * Ka1 + Ka1 * Ka2)
  ⟨alpha0 * totalCarbonate, alpha1 * totalCarbonate, alpha2 * totalCarbonate⟩

/-- Result of `solvePhosphateSystem`. -/
structure PhosSpecies where
  H3PO4 : ℝ
  H2PO4 : ℝ
  HPO4 : ℝ
  PO4 : ℝ

/-- `solvePhosphateSystem`. -/
def solvePhosphateSystem (pH totalPhosphate _ionicStrength temp : ℝ) : PhosSpecies :=
  let pKa1 := temperatureCorrectPKa 2.12 temp
  let pKa2 := temperatureCorrectPKa 7.21 temp
  let pKa3 := temperatureCorrectPKa 12.68 temp
  let Ka1 := pow10 (-pKa1)
  let Ka2 := pow10 (-pKa2)
  let Ka3 := pow10 (-pKa3)
  let H := pow10 (-pH)
  let denominator := H * H * H + H * H * Ka1 + H * Ka1 * Ka2 + Ka1 * Ka2 * Ka3
  ⟨H * H * H / denominator * totalPhosphate,
   H * H * Ka1 / denominator * totalPhosphate,
   H * Ka1 * Ka2 / denominator * totalPhosphate,
   Ka1 * Ka2 * Ka3 / denominator * totalPhosphate⟩

/-- The charge-balance residual evaluated by one bisection iteration of
`solvePHIteratively`: species at the candidate pH, water self-ionization with
the temperature-corrected `Kw`, then `calculateChargeBalance`. -/
def chargeErrorAt (w : WaterProfile) (grainPhosphate ionicStrength temp pH : ℝ) : ℝ :=
  let totalCarbonate := (w.bicarbonate : ℝ) / 61.02 / 1000
  let carb := solveCarbonateSystem pH totalCarbonate ionicStrength temp
  let phos := solvePhosphateSystem pH grainPhosphate ionicStrength temp
  let Kw := pow10 (-14) * Real.exp (-0.01 * (temp - 25))
  let H := pow10 (-pH)
  let OH := Kw / H
  let cations := (w.calcium : ℝ) / 40.08 / 1000 * 2 + (w.magnesium : ℝ) / 24.31 / 1000 * 2 +
    (w.sodium : ℝ) / 22.99 / 1000 + H
  let anions := (w.sulfate : ℝ) / 96.06 / 1000 * 2 + (w.chloride : ℝ) / 35.45 / 1000 +
    carb.HCO3 + carb.CO3 * 2 + OH + phos.H2PO4 + phos.HPO4 * 2 + phos.PO4 * 3
  cations - anions

open Classical in
/-- The bisection loop of `solvePHIteratively`: state is
`(lowPH, highPH, bestPH, minError)`, with `minError = none` standing for the
initial `Infinity`.  Each iteration evaluates the residual at the midpoint,
updates the best-seen pH, halves the range (`chargeError > 0` lowers
`highPH`, otherwise raises `lowPH`), and stops early when the absolute
residual drops below `1e-6`. -/
noncomputable def bisectLoop (e : ℝ → ℝ) : ℕ → ℝ → ℝ → ℝ → Option ℝ → ℝ
  | 0, _, _, best, _ => best
  | Nat.succ n, lo, hi, best, minErr =>
    let pH := (lo + hi) / 2
    let err := e pH
    let better : Prop := match minErr with | none => True | some m => |err| < m
    let best' := if better then pH else best
    let minErr' := if better then some |err| else minErr
    if |err| < 1e-6 then best'
    else if err > 0 then bisectLoop e n lo pH best' minErr'
    else bisectLoop e n pH hi best' minErr'

/-- `solvePHIteratively`: bisection over `[4.0, 7.0]` starting from the
initial guess `bestPH = 5.5`, returning the best-seen pH. -/
def solvePHIteratively (w : WaterProfile) (grainPhosphate ionicStrength temp : ℝ)
    (maxIterations : ℕ) : ℝ :=
  bisectLoop (chargeErrorAt w grainPhosphate ionicStrength temp) maxIterations 4 7 5.5 none

/-- `calculateAdvancedPH` with its grain-phosphate estimate
`(totalGrainWeight * 0.01) / (totalGrainWeight * mashThickness)`. -/
def calculateAdvancedPH (src : WaterProfile) (bill : List GrainBillItem)
    (thickness temp : ℚ) (iterations : ℕ) : ℝ :=
  let ionicStrength := ((calculateIonicStrength src : ℚ) : ℝ)
  let totalGrainWeight := ((totalWeight bill : ℚ) : ℝ)
  let grainPhosphateTotal := totalGrainWeight * 0.01
  let mashVolume := totalGrainWeight * (thickness : ℝ)
  let grainPhosphate := grainPhosphateTotal / mashVolume
  solvePHIteratively src grainPhosphate ionicStrength (temp : ℝ) iterations

/-! Abbreviations used to state and prove the monotonicity of the
charge-balance residual.  They are algebraic regroupings of the terms of
`chargeErrorAt`, not additional modelling. -/

/-- First carbonic-acid dissociation constant at temperature `T`. -/
def KaC1 (T : ℝ) : ℝ := pow10 (-(temperatureCorrectPKa 6.35 T))

/-- Second carbonic-acid dissociation constant at temperature `T`. -/
def KaC2 (T : ℝ) : ℝ := pow10 (-(temperatureCorrectPKa 10.33 T))

/-- First phosphoric-acid dissociation constant at temperature `T`. -/
def KaP1 (T : ℝ) : ℝ := pow10 (-(temperatureCorrectPKa 2.12 T))

/-- Second phosphoric-acid dissociation constant at temperature `T`. -/
def KaP2 (T : ℝ) : ℝ := pow10 (-(temperatureCorrectPKa 7.21 T))

/-- Third phosphoric-acid dissociation constant at temperature `T`. -/
def KaP3 (T : ℝ) : ℝ := pow10 (-(temperatureCorrectPKa 12.68 T))

/-- Temperature-corrected water ion product. -/
def KwT (T : ℝ) : ℝ := pow10 (-14) * Real.exp (-0.01 * (T - 25))

/-- Anion charge carried by one mole of total carbonate at proton
concentration `H`, for `a = Ka1`, `c = Ka1 * Ka2`. -/
def carbQ (a c H : ℝ) : ℝ := (H * a + 2 * c) / (H * H + H * a + c)

/-- Anion charge carried by one mole of total phosphate at proton
concentration `H`, for `a = Ka1`, `b = Ka1 * Ka2`, `c = Ka1 * Ka2 * Ka3`. -/
def phosQ (a b c H : ℝ) : ℝ :=
  (a * H * H + 2 * b * H + 3 * c) / (H * H * H + a * H * H + b * H + c)

/-- The pH-independent part of the charge balance: fixed water cations minus
fixed water anions. -/
def waterConst (w : WaterProfile) : ℝ :=
  ((w.calcium : ℝ) / 40.08 / 1000 * 2 + (w.magnesium : ℝ) / 24.31 / 1000 * 2 +
      (w.sodium : ℝ) / 22.99 / 1000)
    - ((w.sulfate : ℝ) / 96.06 / 1000 * 2 + (w.chloride : ℝ) / 35.45 / 1000)

end

end WaterChem.AdvancedModel

namespace WaterChem

/-- First-occurrence deduplication, matching the key set (and insertion
order) of a JS object populated by repeated assignment. -/
def dedupKeys : List String → List String :=
  go []
where
  /-- Accumulating pass keeping the first occurrence of each key. -/
  go : List String → List String → List String
  | _, [] => []
  | seen, n :: rest => if n ∈ seen then go seen rest else n :: go (n :: seen) rest

end WaterChem

namespace WaterChem.Exact

/-! The exact optimizer, `src/models/optimization/exact.ts`. -/

/-- One row of the salt-contribution matrix built by `buildSaltMatrix`:
per-gram yields for the six optimized ions (`|| 0` for absent ions). -/
structure SaltMatrixRow where
  saltName : String
  calcium : ℚ
  magnesium : ℚ
  sodium : ℚ
  sulfate : ℚ
  chloride : ℚ
  bicarbonate : ℚ
deriving DecidableEq

/-- A vector over the six optimized ions (used for `needed` and
`deviations`). -/
structure IonVec where
  calcium : ℚ
  magnesium : ℚ
  sodium : ℚ
  sulfate : ℚ
  chloride : ℚ
  bicarbonate : ℚ
deriving DecidableEq

/-- `buildSaltMatrix`: rows for `allowedSalts || Object.keys(SALTS)`,
skipping unknown names. -/
def buildSaltMatrix (allowedSalts : Option (List String)) : List SaltMatrixRow :=
  let saltsToUse := allowedSalts.getD (SALTS.map (fun p => p.1))
  saltsToUse.filterMap (fun n =>
    (findSalt n).map (fun s =>
      { saltName := n
        calcium := s.getIon .calcium
        magnesium := s.getIon .magnesium
        sodium := s.getIon .sodium
        sulfate := s.getIon .sulfate
        chloride := s.getIon .chloride
        bicarbonate := s.getIon .bicarbonate }))

/-- One iteration of `calculateProfile`'s loop over the matrix, on the heap
pair `(sourceWater, result)`: `saltAmounts[name] || 0` grams of each salt,
zero amounts skipped, all writes targeting `result`. -/
def calcProfileStep (amounts : String → ℚ) (st : WaterProfile × WaterProfile)
    (row : SaltMatrixRow) : WaterProfile × WaterProfile :=
  let amount := amounts row.saltName
  if amount = 0 then st
  else
    (st.1,
      { st.2 with
        calcium := st.2.calcium + amount * row.calcium
        magnesium := st.2.magnesium + amount * row.magnesium
        sodium := st.2.sodium + amount * row.sodium
        sulfate := st.2.sulfate + amount * row.sulfate
        chloride := st.2.chloride + amount * row.chloride
        bicarbonate := st.2.bicarbonate + amount * row.bicarbonate })

/-- `calculateProfile`: `result = { ...sourceWater }` plus the matrix fold. -/
def calculateProfile (src : WaterProfile) (amounts : String → ℚ)
    (matrix : List SaltMatrixRow) : WaterProfile :=
  (matrix.foldl (calcProfileStep amounts) (src, src)).2

/-- `calculateDeviation`: per-ion signed differences and the total absolute
deviation, in the source's ion order. -/
def calculateDeviation (achieved target : WaterProfile) : IonVec × ℚ :=
  let d : IonVec :=
    { calcium := achieved.calcium - target.calcium
      magnesium := achieved.magnesium - target.magnesium
      sodium := achieved.sodium - target.sodium
      sulfate := achieved.sulfate - target.sulfate
      chloride := achieved.chloride - target.chloride
      bicarbonate := achieved.bicarbonate - target.bicarbonate }
  (d, |d.calcium| + |d.magnesium| + |d.sodium| + |d.sulfate| + |d.chloride| + |d.bicarbonate|)

/-- `ExactOptimizationInput` with its defaults. -/
structure ExactInput where
  sourceWater : WaterProfile
  targetWater : WaterProfile
  maxIterations : ℕ := 100
  tolerance : ℚ := 5
  allowedSalts : Option (List String) := none
  maxSaltAmount : ℚ := 10
deriving DecidableEq

/-- `ExactOptimizationResult`.  The `salts` record is kept as an association
list in JS key-insertion order. -/
structure ExactResult where
  salts : List (String × ℚ)
  achievedProfile : WaterProfile
  deviations : IonVec
  totalDeviation : ℚ
  iterations : ℕ
  warnings : List String
  impossible : Bool
deriving DecidableEq

/-- Pointwise update of a salt-amount record. -/
def setAmount (f : String → ℚ) (n : String) (v : ℚ) : String → ℚ :=
  fun m => if m = n then v else f m

/-- `testDev.total < bestDeviation`, where `none` models the initial
`Infinity`. -/
def devLT (d : ℚ) (o : Option ℚ) : Bool :=
  match o with
  | none => true
  | some b => decide (d < b)

/-- The mutable state of the refinement loop: the working `saltAmounts`,
the best-seen `bestAmounts` and `bestDeviation`, and the iteration counter. -/
structure LoopState where
  amounts : String → ℚ
  bestAmounts : String → ℚ
  bestDeviation : Option ℚ
  iterations : ℕ

/-- The limiting-ion scan of Step 1: the smallest positive
`needed[ion] / saltContribution[ion]` over the six ions (0 when no ion both
is needed and is supplied). -/
def maxContributionOf (needed : IonVec) (row : SaltMatrixRow) : ℚ :=
  [(row.calcium, needed.calcium), (row.magnesium, needed.magnesium),
   (row.sodium, needed.sodium), (row.sulfate, needed.sulfate),
   (row.chloride, needed.chloride), (row.bicarbonate, needed.bicarbonate)].foldl
    (fun mc p =>
      if p.1 > 0 ∧ p.2 > 0 then
        let possibleAmount := p.2 / p.1
        if mc = 0 ∨ possibleAmount < mc then possibleAmount else mc
      else mc) 0

/-- Step 1 of `optimizeExact`: start each salt at
`min(maxContribution * 0.5, maxSaltAmount)` when its limiting contribution is
positive. -/
def initialAmounts (needed : IonVec) (matrix : List SaltMatrixRow) (maxSaltAmount : ℚ) :
    String → ℚ :=
  matrix.foldl
    (fun f row =>
      let mc := maxContributionOf needed row
      if mc > 0 then setAmount f row.saltName (min (mc * 0.5) maxSaltAmount) else f)
    (fun _ => 0)

/-- The per-salt body of the refinement loop: try `+stepSize` (capped at
`maxSaltAmount`), then — if the current amount exceeds `stepSize` — try
`-stepSize`, accepting any change that strictly reduces the total
deviation. -/
def trySalt (src tgt : WaterProfile) (matrix : List SaltMatrixRow)
    (maxSaltAmount stepSize : ℚ) (st : LoopState) (row : SaltMatrixRow) : LoopState :=
  let incAmount := min (st.amounts row.saltName + stepSize) maxSaltAmount
  let testAmounts := setAmount st.amounts row.saltName incAmount
  let testDev := (calculateDeviation (calculateProfile src testAmounts matrix) tgt).2
  let st1 :=
    if devLT testDev st.bestDeviation then
      { st with amounts := testAmounts, bestAmounts := testAmounts,
                bestDeviation := some testDev }
    else st
  let current := st1.amounts row.saltName
  if current > stepSize then
    let testAmounts2 := setAmount st1.amounts row.saltName (current - stepSize)
    let testDev2 := (calculateDeviation (calculateProfile src testAmounts2 matrix) tgt).2
    if devLT testDev2 st1.bestDeviation then
      { st1 with amounts := testAmounts2, bestAmounts := testAmounts2,
                 bestDeviation := some testDev2 }
    else st1
  else st1

/-- One `iter` pass: increment the counter, then sweep every salt. -/
def iterOnce (src tgt : WaterProfile) (matrix : List SaltMatrixRow)
    (maxSaltAmount stepSize : ℚ) (st : LoopState) : LoopState :=
  matrix.foldl (trySalt src tgt matrix maxSaltAmount stepSize)
    { st with iterations := st.iterations + 1 }

/-- The inner `iter` loop for one step size, with the early
`bestDeviation < tolerance * 6` break. -/
def iterLoop (src tgt : WaterProfile) (matrix : List SaltMatrixRow)
    (maxSaltAmount stepSize tolerance : ℚ) : ℕ → LoopState → LoopState
  | 0, st => st
  | Nat.succ n, st =>
    let st' := iterOnce src tgt matrix maxSaltAmount stepSize st
    match st'.bestDeviation with
    | none => iterLoop src tgt matrix maxSaltAmount stepSize tolerance n st'
    | some d =>
      if d < tolerance * 6 then st'
      else iterLoop src tgt matrix maxSaltAmount stepSize tolerance n st'

/-- The step sizes of Step 2. -/
def stepSizes : List ℚ := [1.0, 0.5, 0.2, 0.1, 0.05]

/-- The infeasibility warning emitted by `optimizeExact`. -/
def dilutionWarning : String :=
  "Cannot reduce ions below source water levels - dilution needed"

/-- The `needed` record of `optimizeExact`: target minus source per ion. -/
def exactNeeded (input : ExactInput) : IonVec :=
  { calcium := input.targetWater.calcium - input.sourceWater.calcium
    magnesium := input.targetWater.magnesium - input.sourceWater.magnesium
    sodium := input.targetWater.sodium - input.sourceWater.sodium
    sulfate := input.targetWater.sulfate - input.sourceWater.sulfate
    chloride := input.targetWater.chloride - input.sourceWater.chloride
    bicarbonate := input.targetWater.bicarbonate - input.sourceWater.bicarbonate }

/-- The loop state right before Step 2: `saltAmounts` holds the Step 1
initial approximation, while `bestAmounts`/`bestDeviation` still hold the
pre-Step-1 copy (all zeros) and `Infinity`, exactly as in the source. -/
def exactInitState (input : ExactInput) : LoopState :=
  { amounts := initialAmounts (exactNeeded input) (buildSaltMatrix input.allowedSalts)
      input.maxSaltAmount
    bestAmounts := fun _ => 0
    bestDeviation := none
    iterations := 0 }

/-- The loop state after the full Step 2 sweep over all step sizes.  The
inner loop runs `iter < maxIterations / stepSizes.length` times, i.e.
`⌈maxIterations / 5⌉` iterations for a natural-number budget. -/
def exactFinalState (input : ExactInput) : LoopState :=
  stepSizes.foldl
    (fun st s =>
      iterLoop input.sourceWater input.targetWater (buildSaltMatrix input.allowedSalts)
        input.maxSaltAmount s input.tolerance ((input.maxIterations + 4) / 5) st)
    (exactInitState input)

/-- `optimizeExact` of `exact.ts`.  Rounding/deleting at the end follows the
source: round every best amount to 0.1 g and drop entries below 0.1 g (a
deleted key reads back as 0 through `|| 0`). -/
def optimizeExact (input : ExactInput) : ExactResult :=
  let src := input.sourceWater
  let tgt := input.targetWater
  let matrix := buildSaltMatrix input.allowedSalts
  let needed := exactNeeded input
  let warnings0 : List String :=
    if needed.calcium < 0 ∨ needed.sulfate < 0 ∨ needed.chloride < 0 then [dilutionWarning]
    else []
  let stF := exactFinalState input
  let finalAmounts : String → ℚ := fun n =>
    let v := roundTenth (stF.bestAmounts n)
    if v < 0.1 then 0 else v
  let names := dedupKeys (matrix.map (fun r => r.saltName))
  let salts := (names.map (fun n => (n, roundTenth (stF.bestAmounts n)))).filter
    (fun p => decide (¬ p.2 < 0.1))
  let achievedProfile := calculateProfile src finalAmounts matrix
  let finalDev := calculateDeviation achievedProfile tgt
  let warnings1 := warnings0 ++
    (if finalDev.2 > input.tolerance * 12 then
      ["Could not achieve exact match - consider adjusting targets"] else [])
  let warnings2 := warnings1 ++
    (if salts.length > 5 then
      ["Using " ++ toString salts.length ++ " different salts - consider simplifying"]
     else [])
  let warnings3 := warnings2 ++ salts.filterMap
    (fun p =>
      if p.2 > 5 then
        some ("High amount of " ++ p.1 ++ " (" ++ toString p.2 ++ "g) - may affect flavor")
      else none)
  let cationCharge := achievedProfile.calcium * 2 + achievedProfile.magnesium * 2 +
    achievedProfile.sodium
  let anionCharge := achievedProfile.sulfate * 2 + achievedProfile.chloride +
    achievedProfile.bicarbonate
  let warnings4 := warnings3 ++
    (if |cationCharge - anionCharge| > 50 then
      ["Significant ion imbalance detected - verify water analysis"] else [])
  { salts := salts
    achievedProfile := achievedProfile
    deviations := finalDev.1
    totalDeviation := finalDev.2
    iterations := stF.iterations
    warnings := warnings4
    impossible := decide (finalDev.2 > input.tolerance * 20) }

end WaterChem.Exact

namespace WaterChem

/-- The target-style selector shared by the minimal and balanced optimizers. -/
inductive Style where
  | hoppy
  | balanced
  | malty
deriving DecidableEq

/-- Read an ion field the way JS property access does: `undefined` for an
absent optional carbonate. -/
def getIonOpt (w : WaterProfile) (i : Ion) : Option ℚ :=
  match i with
  | .calcium => some w.calcium
  | .magnesium => some w.magnesium
  | .sodium => some w.sodium
  | .sulfate => some w.sulfate
  | .chloride => some w.chloride
  | .bicarbonate => some w.bicarbonate
  | .carbonate => w.carbonate

end WaterChem

namespace WaterChem.Minimal

/-! The minimal optimizer, `src/models/optimization/minimal.ts`. -/

/-- The only three keys ever written into the `salts` record of
`optimizeMinimal`. -/
structure MinSalts where
  gypsum : Option ℚ := none
  calcium_chloride : Option ℚ := none
  sodium_chloride : Option ℚ := none
deriving DecidableEq

/-- `Object.keys(salts).length`. -/
def MinSalts.count (s : MinSalts) : ℕ :=
  (if s.gypsum.isSome then 1 else 0) + (if s.calcium_chloride.isSome then 1 else 0) +
    (if s.sodium_chloride.isSome then 1 else 0)

/-- The salt record as an association list (key order abstracted; the claims
only quantify over its entries). -/
def MinSalts.toList (s : MinSalts) : List (String × ℚ) :=
  (s.gypsum.map (fun v => ("gypsum", v))).toList ++
    (s.calcium_chloride.map (fun v => ("calcium_chloride", v))).toList ++
    (s.sodium_chloride.map (fun v => ("sodium_chloride", v))).toList

/-- `MinimalOptimizationInput` with its defaults. -/
structure MinimalInput where
  sourceWater : WaterProfile
  targetStyle : Style
  ensureCalcium : Bool := true
  maxSalts : ℕ := 2
deriving DecidableEq

/-- `MinimalOptimizationResult` (the rationale log is kept as a plain
count-free list of the pushed messages' keys is unnecessary; messages are
omitted as presentation-only). -/
structure MinimalResult where
  salts : List (String × ℚ)
  achievedProfile : WaterProfile
  totalSalts : ℕ
  totalWeight : ℚ
deriving DecidableEq

/-- Step 1 of `optimizeMinimal`: the calcium floor (`ION_LIMITS.calcium.min
= 50`), choosing gypsum for hoppy styles and calcium chloride otherwise.
Water updates use the unrounded amount; the salt record stores the rounded
one.  Yield constants are `SALTS.gypsum.ionsPPMPerGram` (232.5 Ca, 557.7
SO4) and `SALTS.calcium_chloride.ionsPPMPerGram` (272.6 Ca, 482.3 Cl). -/
def step1 (input : MinimalInput) : MinSalts × WaterProfile :=
  let src := input.sourceWater
  if input.ensureCalcium = true ∧ src.calcium < 50 then
    let calciumNeeded := 50 - src.calcium
    if input.targetStyle = .hoppy then
      let gypsumAmount := calciumNeeded / 232.5
      ({ gypsum := some (roundTenth gypsumAmount) },
       { src with
          calcium := src.calcium + gypsumAmount * 232.5
          sulfate := src.sulfate + gypsumAmount * 557.7 })
    else
      let cacl2Amount := calciumNeeded / 272.6
      ({ calcium_chloride := some (roundTenth cacl2Amount) },
       { src with
          calcium := src.calcium + cacl2Amount * 272.6
          chloride := src.chloride + cacl2Amount * 482.3 })
  else ({}, src)

/-- Step 2 of `optimizeMinimal`: nudge the sulfate:chloride ratio toward the
style target if salt budget remains.  `!salts.gypsum` is JS falsiness: the
key is absent or holds 0.  Yields: gypsum 232.5 Ca / 557.7 SO4, table salt
393.4 Na / 606.6 Cl. -/
def step2 (input : MinimalInput) (salts : MinSalts) (water : WaterProfile) :
    MinSalts × WaterProfile :=
  let saltsUsed := salts.count
  if saltsUsed < input.maxSalts then
    let currentRatio := if water.chloride > 0 then water.sulfate / water.chloride else 999
    match input.targetStyle with
    | .hoppy =>
      if currentRatio < 3 then
        let sulfateNeeded := water.chloride * 3 - water.sulfate
        if sulfateNeeded > 50 then
          if salts.gypsum.getD 0 = 0 then
            let gypsumAmount := min (sulfateNeeded / 557.7) 5
            ({ salts with gypsum := some (roundTenth gypsumAmount) },
             { water with
                calcium := water.calcium + gypsumAmount * 232.5
                sulfate := water.sulfate + gypsumAmount * 557.7 })
          else (salts, water)
        else (salts, water)
      else (salts, water)
    | .malty =>
      if currentRatio > 0.5 then
        let chlorideNeeded := water.sulfate * 2 - water.chloride
        if chlorideNeeded > 30 then
          let saltAmount := min (chlorideNeeded / 606.6) 2
          ({ salts with sodium_chloride := some (roundTenth saltAmount) },
           { water with
              sodium := water.sodium + saltAmount * 393.4
              chloride := water.chloride + saltAmount * 606.6 })
        else (salts, water)
      else (salts, water)
    | .balanced =>
      if currentRatio > 1.5 then
        let chlorideNeeded := water.sulfate - water.chloride
        if chlorideNeeded > 30 ∧ saltsUsed < input.maxSalts then
          let saltAmount := min (chlorideNeeded / 606.6) 1
          ({ salts with sodium_chloride := some (roundTenth saltAmount) },
           { water with
              sodium := water.sodium + saltAmount * 393.4
              chloride := water.chloride + saltAmount * 606.6 })
        else (salts, water)
      else if currentRatio < 0.67 then
        if salts.gypsum.getD 0 = 0 ∧ saltsUsed < input.maxSalts then
          let sulfateNeeded := water.chloride - water.sulfate
          let gypsumAmount := min (sulfateNeeded / 557.7) 2
          ({ salts with gypsum := some (roundTenth gypsumAmount) },
           { water with
              calcium := water.calcium + gypsumAmount * 232.5
              sulfate := water.sulfate + gypsumAmount * 557.7 })
        else (salts, water)
      else (salts, water)
  else (salts, water)

/-- `optimizeMinimal`: the two steps, then totals. -/
def optimizeMinimal (input : MinimalInput) : MinimalResult :=
  let r1 := step1 input
  let r2 := step2 input r1.1 r1.2
  let saltsList := r2.1.toList
  let totalWeight := saltsList.foldl (fun s p => s + p.2) (0 : ℚ)
  { salts := saltsList
    achievedProfile := r2.2
    totalSalts := saltsList.length
    totalWeight := roundTenth totalWeight }

end WaterChem.Minimal

namespace WaterChem.Balanced

/-! The balanced optimizer, `src/models/optimization/balanced.ts`. -/

/-- `SULFATE_CHLORIDE_RATIOS[style].target`. -/
def styleTargetRatio : Style → ℚ
  | .hoppy => 3
  | .balanced => 1
  | .malty => 0.5

/-- `scoreWaterProfile`: the 0–100 match score. -/
def scoreWaterProfile (water target : WaterProfile) (style : Style) : ℚ :=
  let score0 : ℚ := 100
  let score1 :=
    if water.calcium < 50 then score0 - 30 * (1 - water.calcium / 50)
    else if water.calcium > 150 then score0 - 15 * ((water.calcium - 150) / 150)
    else score0
  let ratio := if water.chloride > 0 then water.sulfate / water.chloride else 999
  let targetRatio := styleTargetRatio style
  let ratioDiff := |ratio - targetRatio| / targetRatio
  let score2 := score1 - 25 * min ratioDiff 1
  let ionPenalty := fun (sc actual goal : ℚ) =>
    if goal > 0 then sc - 7.5 * min (|actual - goal| / goal) 1 else sc
  let score3 := ionPenalty score2 water.calcium target.calcium
  let score4 := ionPenalty score3 water.magnesium target.magnesium
  let score5 := ionPenalty score4 water.sodium target.sodium
  let score6 := ionPenalty score5 water.sulfate target.sulfate
  let score7 := ionPenalty score6 water.chloride target.chloride
  let score8 := ionPenalty score7 water.bicarbonate target.bicarbonate
  max 0 score8

/-- `BalancedOptimizationInput` with its defaults (the tolerance field is
accepted but never read by the optimizer, as in the source). -/
structure BalancedInput where
  sourceWater : WaterProfile
  targetWater : WaterProfile
  maxSalts : ℕ := 4
  tolerance : ℚ := 0.1
  preferredStyle : Style := .balanced
deriving DecidableEq

/-- `OptimizationResult` of `balanced.ts`. -/
structure BalancedResult where
  salts : List (String × ℚ)
  achievedProfile : WaterProfile
  matchPercentage : ℚ
  deviations : Exact.IonVec
deriving DecidableEq

/-- The loop state: the additions so far, the running water, the remaining
needs, and the salt count. -/
structure BalState where
  saltAdditions : List (String × ℚ)
  currentWater : WaterProfile
  needed : WaterProfile
  saltsUsed : ℕ

/-- The fixed priority list. -/
def prioritySalts : List String :=
  ["gypsum", "calcium_chloride", "epsom_salt", "sodium_chloride", "baking_soda",
   "calcium_carbonate"]

/-- The body of the priority loop for one salt: scan the salt's ions for
still-positive needs (`need && need > 0 && ppmPerGram > 0`), take 80 % of the
most-constraining amount (`(need / ppmPerGram) * 18` for the hardcoded 18 L
mash), cap at 10 g, and update water and needs with the unrounded amount
(`x[ion] = (x[ion] || 0) ± added`). -/
def processSalt (st : BalState) (saltName : String) : BalState :=
  match findSalt saltName with
  | none => st
  | some salt =>
    let scan := salt.ions.foldl
      (fun (acc : ℕ × ℚ) (p : Ion × ℚ) =>
        match getIonOpt st.needed p.1 with
        | none => acc
        | some nd =>
          if nd > 0 ∧ p.2 > 0 then
            let amountForIon := nd / p.2 * 18
            (acc.1 + 1, if acc.2 = 0 then amountForIon else min acc.2 amountForIon)
          else acc)
      (0, 0)
    if scan.1 > 0 ∧ scan.2 > 0.1 then
      let amount := min (scan.2 * 0.8) 10
      let updated := salt.ions.foldl
        (fun (wn : WaterProfile × WaterProfile) p =>
          let added := amount * p.2
          (V1.addIon wn.1 p.1 added, V1.addIon wn.2 p.1 (-added)))
        (st.currentWater, st.needed)
      { saltAdditions := st.saltAdditions ++ [(saltName, roundTenth amount)]
        currentWater := updated.1
        needed := updated.2
        saltsUsed := st.saltsUsed + 1 }
    else st

/-- The priority loop with its `saltsUsed >= maxSalts` break. -/
def balLoop (maxSalts : ℕ) : List String → BalState → BalState
  | [], st => st
  | n :: rest, st =>
    if st.saltsUsed ≥ maxSalts then st
    else balLoop maxSalts rest (processSalt st n)

/-- `optimizeBalanced`: difference, priority loop, score and deviations. -/
def optimizeBalanced (input : BalancedInput) : BalancedResult :=
  let src := input.sourceWater
  let tgt := input.targetWater
  let needed : WaterProfile :=
    { calcium := tgt.calcium - src.calcium
      magnesium := tgt.magnesium - src.magnesium
      sodium := tgt.sodium - src.sodium
      sulfate := tgt.sulfate - src.sulfate
      chloride := tgt.chloride - src.chloride
      bicarbonate := tgt.bicarbonate - src.bicarbonate
      carbonate := none }
  let st0 : BalState :=
    { saltAdditions := [], currentWater := src, needed := needed, saltsUsed := 0 }
  let stF := balLoop input.maxSalts prioritySalts st0
  let score := scoreWaterProfile stF.currentWater tgt input.preferredStyle
  let deviations : Exact.IonVec :=
    { calcium := stF.currentWater.calcium - tgt.calcium
      magnesium := stF.currentWater.magnesium - tgt.magnesium
      sodium := stF.currentWater.sodium - tgt.sodium
      sulfate := stF.currentWater.sulfate - tgt.sulfate
      chloride := stF.currentWater.chloride - tgt.chloride
      bicarbonate := stF.currentWater.bicarbonate - tgt.bicarbonate }
  { salts := stF.saltAdditions
    achievedProfile := stF.currentWater
    matchPercentage := score
    deviations := deviations }

end WaterChem.Balanced

namespace WaterChem

/-- All ion fields of a profile are non-negative (the data-model invariant of
a valid water report); the optional carbonate reads as 0 when absent. -/
@[reducible] def WaterProfile.IonNonneg (w : WaterProfile) : Prop :=
  0 ≤ w.calcium ∧ 0 ≤ w.magnesium ∧ 0 ≤ w.sodium ∧ 0 ≤ w.sulfate ∧ 0 ≤ w.chloride ∧
    0 ≤ w.bicarbonate ∧ 0 ≤ w.carbonate.getD 0

/-- Field-wise comparison of two profiles (carbonate through its `|| 0`
reading). -/
def WaterProfile.ionLE (a b : WaterProfile) : Prop :=
  a.calcium ≤ b.calcium ∧ a.magnesium ≤ b.magnesium ∧ a.sodium ≤ b.sodium ∧
    a.sulfate ≤ b.sulfate ∧ a.chloride ≤ b.chloride ∧ a.bicarbonate ≤ b.bicarbonate ∧
    a.carbonate.getD 0 ≤ b.carbonate.getD 0

/-- A salt-amount record maps every name into `[0, maxAmount]`. -/
def AmountsInRange (maxAmount : ℚ) (f : String → ℚ) : Prop :=
  ∀ n, 0 ≤ f n ∧ f n ≤ maxAmount

end WaterChem

namespace WaterChem

/-- Generic preservation of a predicate along `List.foldl`. -/
theorem foldl_preserve {α β : Type _} (P : α → Prop) (f : α → β → α)
    (h : ∀ a b, P a → P (f a b)) :
    ∀ (l : List β) (a : α), P a → P (l.foldl f a) := by
  intro l
  induction l with
  | nil => intro a ha; simpa using ha
  | cons x xs ih =>
    intro a ha
    simpa using ih (f a x) (h a x ha)

/-- Preservation of a predicate along `List.foldl` when the step only needs
to preserve it for list members. -/
theorem foldl_preserve_mem {α β : Type _} (P : α → Prop) (f : α → β → α) :
    ∀ (l : List β) (a : α), (∀ b ∈ l, ∀ x, P x → P (f x b)) → P a → P (l.foldl f a)
  | [], a, _, ha => ha
  | b :: l, a, h, ha => by
    simpa using foldl_preserve_mem P f l (f a b)
      (fun c hc x hx => h c (List.mem_cons_of_mem _ hc) x hx)
      (h b (List.mem_cons_self _ _) a ha)

end WaterChem

namespace WaterChem

/-! ## Helper lemmas -/

theorem roundTenth_isTenth (x : ℚ) : IsTenth (roundTenth x) :=
  ⟨⌊x * 10 + 1/2⌋, rfl⟩

theorem roundTenth_nonneg {x : ℚ} (hx : 0 ≤ x) : 0 ≤ roundTenth x := by
  unfold roundTenth
  have h : (0 : ℤ) ≤ ⌊x * 10 + 1/2⌋ := by
    apply Int.le_floor.mpr
    push_cast
    linarith
  positivity

theorem roundTenth_le_add {x B : ℚ} (hx : x ≤ B) : roundTenth x ≤ B + 1/20 := by
  unfold roundTenth
  have h : ((⌊x * 10 + 1/2⌋ : ℤ) : ℚ) ≤ x * 10 + 1/2 := Int.floor_le _
  linarith

theorem roundTenth_le_of_den_one {x B : ℚ} (hx : x ≤ B) (hB : (B * 10).den = 1) :
    roundTenth x ≤ B := by
  unfold roundTenth
  have hBint : ((B * 10).num : ℚ) = B * 10 := by
    rw [← Rat.den_eq_one_iff]
    exact hB
  have h : ⌊x * 10 + 1/2⌋ ≤ (B * 10).num := by
    have h1 : x * 10 + 1/2 ≤ (1 : ℚ)/2 + (B * 10).num := by
      rw [hBint]; linarith
    calc ⌊x * 10 + 1/2⌋ ≤ ⌊(1 : ℚ)/2 + (B * 10).num⌋ := Int.floor_le_floor h1
      _ = ⌊(1 : ℚ)/2⌋ + (B * 10).num := Int.floor_add_int _ _
      _ = (B * 10).num := by norm_num
  have h2 : ((⌊x * 10 + 1/2⌋ : ℤ) : ℚ) ≤ ((B * 10).num : ℚ) := by exact_mod_cast h
  rw [hBint] at h2
  linarith

theorem roundTenth_ge_tenth {x : ℚ} (hx : 1/20 ≤ x) : 1/10 ≤ roundTenth x := by
  unfold roundTenth
  have h : (1 : ℤ) ≤ ⌊x * 10 + 1/2⌋ := by
    apply Int.le_floor.mpr
    push_cast
    linarith
  have h2 : (1 : ℚ) ≤ ((⌊x * 10 + 1/2⌋ : ℤ) : ℚ) := by exact_mod_cast h
  linarith

theorem clampPH_bounds (x : ℚ) : 4.5 ≤ clampPH x ∧ clampPH x ≤ 6.5 :=
  ⟨le_max_left _ _, max_le (by norm_num) (min_le_left _ _)⟩

end WaterChem

namespace WaterChem

/-! ## C1 — volume-mode sensitivity of the PPM contribution -/

/-- C1: for any grams and yield and any volumes with positive mash and total
volumes, the whole-batch (`'total'`) contribution equals the mash-normalized
(`'mash'`) contribution multiplied by `volumes.mash / volumes.total`, in both
the legacy and the v2 PPM calculators. -/
theorem C1_volume_mode_sensitivity (g y : ℚ) (v : Volumes) (loc : Option SaltLocation)
    (hm : 0 < v.mash) (ht : 0 < v.total) :
    V1.calculatePPM g y v .total loc
        = (V1.calculatePPM g y v .mash loc).map (fun p => p * (v.mash / v.total))
      ∧ V2.calculatePPM g y ⟨some v.total, some v.mash, some v.sparge⟩ .total loc
        = V2.calculatePPM g y ⟨some v.total, some v.mash, some v.sparge⟩ .mash loc
            * (v.mash / v.total) := by
  constructor
  · simp only [V1.calculatePPM, V1.effectiveVolume, V1.ppmValue, hm.ne', ht.ne',
      if_false, Option.map_some]
    congr 1
    field_simp
  · simp only [V2.calculatePPM, V2.effectiveVolume, Option.getD_some]
    rcases eq_or_ne y 0 with hy | hy
    · simp [hy]
    rcases eq_or_ne g 0 with hg | hg
    · simp [hg]
    rw [if_neg (by push_neg; exact ⟨ht.ne', hy, hg⟩),
      if_neg (by push_neg; exact ⟨hm.ne', hy, hg⟩)]
    field_simp

/-- Witness for C1 at the spec's concrete example: 1.5 g of a salt yielding
232.5 ppm/g/L in a 17 L mash / 32.2 L batch. -/
theorem C1_volume_mode_sensitivity_witness :
    V1.calculatePPM 1.5 232.5 ⟨32.2, 17, 15.2⟩ .total none
        = (V1.calculatePPM 1.5 232.5 ⟨32.2, 17, 15.2⟩ .mash none).map
            (fun p => p * ((17 : ℚ) / 32.2))
      ∧ V2.calculatePPM 1.5 232.5 ⟨some 32.2, some 17, some 15.2⟩ .total none
        = V2.calculatePPM 1.5 232.5 ⟨some 32.2, some 17, some 15.2⟩ .mash none
            * ((17 : ℚ) / 32.2) :=
  C1_volume_mode_sensitivity 1.5 232.5 ⟨32.2, 17, 15.2⟩ none (by norm_num) (by norm_num)

/-! ## C2 — zero / undefined effective volume -/

/-- C2 (amended): the v2 `calculatePPM` returns 0 whenever the selected
effective volume is zero or undefined; the legacy `calculatePPM` of
`ppm-calculator.ts` has no such guard and instead produces a non-finite
double (modelled as `none`) whenever the selected effective volume is 0. -/
theorem C2_zero_effective_volume (g y : ℚ) (pv : PartialVolumes) (v : Volumes)
    (mode : VolumeMode) (loc : Option SaltLocation)
    (h2 : V2.effectiveVolume pv mode loc = 0) (h1 : V1.effectiveVolume v mode loc = 0) :
    V2.calculatePPM g y pv mode loc = 0 ∧ V1.calculatePPM g y v mode loc = none := by
  constructor
  · simp only [V2.calculatePPM]
    rw [if_pos (Or.inl h2)]
  · simp only [V1.calculatePPM]
    rw [if_pos h1]

/-- Witness for C2: staged mode with a zero sparge volume. -/
theorem C2_zero_effective_volume_witness :
    V2.calculatePPM 1.5 232.5 ⟨some 32.2, some 17, some 0⟩ .staged (some .sparge) = 0
      ∧ V1.calculatePPM 1.5 232.5 ⟨32.2, 17, 0⟩ .staged (some .sparge) = none :=
  C2_zero_effective_volume 1.5 232.5 ⟨some 32.2, some 17, some 0⟩ ⟨32.2, 17, 0⟩
    .staged (some .sparge) (by rfl) (by rfl)

/-- Counterexample to C2 as stated: the legacy PPM calculator, called in
staged mode with a zero sparge volume, does not return 0 — it divides by
zero, producing a non-finite value (no rational result at all). -/
theorem C2_zero_effective_volume_counterexample :
    V1.calculatePPM 1.5 232.5 ⟨32.2, 17, 0⟩ .staged (some .sparge) = none := by decide

/-! ## C4 — residual alkalinity -/

/-- C4 (amended): the engine's residual alkalinity is the claimed Kolbach
expression rounded to one decimal, while the models' residual alkalinity
uses the coefficient `50/61` (≈ 0.8197, not 0.82) and ignores carbonate. -/
theorem C4_residual_alkalinity (w : WaterProfile) :
    Engine.calculateResidualAlkalinity w
        = roundTenth (w.bicarbonate * 0.82 + (w.carbonate.getD 0) * 1.67
            - (w.calcium / 1.4 + w.magnesium / 1.7))
      ∧ V1.calculateResidualAlkalinity w
        = w.bicarbonate * (50 / 61) - (w.calcium / 1.4 + w.magnesium / 1.7) := by
  constructor
  · simp only [Engine.calculateResidualAlkalinity]
    congr 1
    ring
  · simp only [V1.calculateResidualAlkalinity]
    ring

/-- Counterexample to C4 as stated: at bicarbonate 61 (everything else 0),
the models' function returns 50 and the engine's returns 50.0, but the
claimed exact expression evaluates to 50.02. -/
theorem C4_residual_alkalinity_counterexample :
    V1.calculateResidualAlkalinity ⟨0, 0, 0, 0, 0, 61, none⟩
        ≠ (61 : ℚ) * 0.82 + 0 * 1.67 - (0 / 1.4 + 0 / 1.7)
      ∧ Engine.calculateResidualAlkalinity ⟨0, 0, 0, 0, 0, 61, none⟩
        ≠ (61 : ℚ) * 0.82 + 0 * 1.67 - (0 / 1.4 + 0 / 1.7) := by
  constructor <;> with_unfolding_all decide

/-! ## C8 — acid dosing non-negativity -/

/-- C8: whenever the current pH does not exceed the target pH, both acid
calculators return zero for every acid. -/
theorem C8_acid_nonnegativity (currentPH targetPH alkalinity mashVolume : ℚ)
    (bill : List GrainBillItem) (mashVolume2 : ℚ) (h : currentPH ≤ targetPH) :
    SimpleModel.calculateAcidNeeded currentPH targetPH alkalinity mashVolume = (0, 0)
      ∧ KaiserModel.calculateKaiserAcidAdditions currentPH targetPH bill mashVolume2
          = (0, 0, 0) := by
  constructor
  · simp only [SimpleModel.calculateAcidNeeded]
    rw [if_pos h]
  · simp only [KaiserModel.calculateKaiserAcidAdditions]
    rw [if_pos h]

/-- Witness for C8 at pH 5.4 → 5.4 with a one-grain bill. -/
theorem C8_acid_nonnegativity_witness :
    SimpleModel.calculateAcidNeeded 5.4 5.4 100 17 = (0, 0)
      ∧ KaiserModel.calculateKaiserAcidAdditions 5.4 5.4
          [⟨"Pilsner", 5, 3, .base⟩] 17 = (0, 0, 0) :=
  C8_acid_nonnegativity 5.4 5.4 100 17 [⟨"Pilsner", 5, 3, .base⟩] 17 (by norm_num)

/-! ## C9 — the Profile Composer never mutates its source argument -/

/-- C9: in the two-object heap model `(sourceWater, result)` of both profile
composers (`calculateWaterProfileFromSalts` of `ppm-calculator.ts` and
`calculateProfile` of the exact optimizer), the source cell is unchanged by
the whole fold; the returned achieved profile is the separately built copy. -/
theorem C9_source_profile_unchanged (src : WaterProfile) (adds : List (String × ℚ))
    (v : Volumes) (mode : VolumeMode) (locs : String → Option SaltLocation)
    (amounts : String → ℚ) (matrix : List Exact.SaltMatrixRow) :
    (adds.foldl (V1.composeStep v mode locs) (src, src)).1 = src
      ∧ V1.calculateWaterProfileFromSalts src adds v mode locs
          = (adds.foldl (V1.composeStep v mode locs) (src, src)).2
      ∧ (matrix.foldl (Exact.calcProfileStep amounts) (src, src)).1 = src
      ∧ Exact.calculateProfile src amounts matrix
          = (matrix.foldl (Exact.calcProfileStep amounts) (src, src)).2 := by
  refine ⟨?_, rfl, ?_, rfl⟩
  · refine foldl_preserve (fun st => st.1 = src) (V1.composeStep v mode locs) ?_ adds
      (src, src) rfl
    intro a b ha
    unfold V1.composeStep
    split
    · exact ha
    · split
      · exact ha
      · exact ha
  · refine foldl_preserve (fun st => st.1 = src) (Exact.calcProfileStep amounts) ?_ matrix
      (src, src) rfl
    intro a b ha
    simp only [Exact.calcProfileStep]
    split
    · exact ha
    · exact ha

end WaterChem

namespace WaterChem

/-! ## C5 — salts only add (the Profile Composer is monotone) -/

theorem ionLE_refl (w : WaterProfile) : w.ionLE w :=
  ⟨le_rfl, le_rfl, le_rfl, le_rfl, le_rfl, le_rfl, le_rfl⟩

theorem ionLE_trans {a b c : WaterProfile} (h1 : a.ionLE b) (h2 : b.ionLE c) : a.ionLE c :=
  ⟨h1.1.trans h2.1, h1.2.1.trans h2.2.1, h1.2.2.1.trans h2.2.2.1,
   h1.2.2.2.1.trans h2.2.2.2.1, h1.2.2.2.2.1.trans h2.2.2.2.2.1,
   h1.2.2.2.2.2.1.trans h2.2.2.2.2.2.1, h1.2.2.2.2.2.2.trans h2.2.2.2.2.2.2⟩

theorem addIon_le (w : WaterProfile) (i : Ion) {p : ℚ} (hp : 0 ≤ p) :
    w.ionLE (V1.addIon w i p) := by
  cases i <;>
    simp only [V1.addIon, WaterProfile.ionLE, Option.getD_some] <;>
    refine ⟨?_, ?_, ?_, ?_, ?_, ?_, ?_⟩ <;> simp <;> linarith

theorem effectiveVolume_nonneg {v : Volumes} (hv : 0 ≤ v.total ∧ 0 ≤ v.mash ∧ 0 ≤ v.sparge)
    (mode : VolumeMode) (loc : Option SaltLocation) : 0 ≤ V1.effectiveVolume v mode loc := by
  rcases mode with _ | _ | _
  · exact hv.1
  · exact hv.2.1
  · rcases loc with _ | l
    · exact hv.1
    · rcases l with _ | _ | _
      · exact hv.2.1
      · exact hv.2.2
      · exact hv.1

theorem ppmValue_nonneg {g y : ℚ} {v : Volumes} (hg : 0 ≤ g) (hy : 0 ≤ y)
    (hv : 0 ≤ v.total ∧ 0 ≤ v.mash ∧ 0 ≤ v.sparge) (mode : VolumeMode)
    (loc : Option SaltLocation) : 0 ≤ V1.ppmValue g y v mode loc :=
  mul_nonneg (div_nonneg hg (effectiveVolume_nonneg hv mode loc)) hy

/-- Every yield coefficient in the salt catalog is non-negative. -/
theorem SALTS_ions_nonneg : ∀ q ∈ SALTS, ∀ p ∈ q.2.ions, 0 ≤ p.2 := by
  intro q hq p hp
  fin_cases hq <;> fin_cases hp <;> norm_num

theorem findSalt_ions_nonneg {n : String} {s : SaltDef} (h : findSalt n = some s) :
    ∀ p ∈ s.ions, 0 ≤ p.2 := by
  unfold findSalt at h
  rcases Option.map_eq_some'.mp h with ⟨q, hq, rfl⟩
  exact SALTS_ions_nonneg q (List.mem_of_find?_eq_some hq)

theorem applySaltIons_le (res : WaterProfile) {salt : SaltDef} {g : ℚ} {v : Volumes}
    (mode : VolumeMode) (loc : Option SaltLocation) (hg : 0 ≤ g)
    (hions : ∀ p ∈ salt.ions, 0 ≤ p.2)
    (hv : 0 ≤ v.total ∧ 0 ≤ v.mash ∧ 0 ≤ v.sparge) :
    res.ionLE (V1.applySaltIons res salt g v mode loc) := by
  unfold V1.applySaltIons
  refine foldl_preserve_mem (fun w => res.ionLE w)
    (fun acc p => V1.addIon acc p.1 (V1.ppmValue g p.2 v mode loc)) salt.ions res
    ?_ (ionLE_refl res)
  intro p hp x hx
  exact ionLE_trans hx (addIon_le x p.1 (ppmValue_nonneg hg (hions p hp) hv mode loc))

/-- C5 (amended): for a source profile with non-negative ion fields,
non-negative salt gram amounts and non-negative volumes, every ion field of
the composed profile is at least the corresponding source field. -/
theorem C5_composer_monotone (src : WaterProfile) (adds : List (String × ℚ)) (v : Volumes)
    (mode : VolumeMode) (locs : String → Option SaltLocation)
    (_hsrc : src.IonNonneg) (hadds : ∀ p ∈ adds, 0 ≤ p.2)
    (hv : 0 ≤ v.total ∧ 0 ≤ v.mash ∧ 0 ≤ v.sparge) :
    src.ionLE (V1.calculateWaterProfileFromSalts src adds v mode locs) := by
  unfold V1.calculateWaterProfileFromSalts
  refine foldl_preserve_mem (fun st => src.ionLE st.2) (V1.composeStep v mode locs) adds
    (src, src) ?_ (ionLE_refl src)
  intro b hb x hx
  unfold V1.composeStep
  split
  · exact hx
  · rcases hfind : findSalt b.1 with _ | salt
    · simpa [hfind] using hx
    · simpa [hfind] using
        ionLE_trans hx
          (applySaltIons_le x.2 mode (locs b.1) (hadds b hb) (findSalt_ions_nonneg hfind) hv)

/-- Witness for C5: 1.5 g of gypsum into RO water with the worked example's
volumes. -/
theorem C5_composer_monotone_witness :
    (⟨0, 0, 0, 0, 0, 0, none⟩ : WaterProfile).ionLE
      (V1.calculateWaterProfileFromSalts ⟨0, 0, 0, 0, 0, 0, none⟩ [("gypsum", 1.5)]
        ⟨32.2, 17, 15.2⟩ .mash (fun _ => none)) :=
  C5_composer_monotone ⟨0, 0, 0, 0, 0, 0, none⟩ [("gypsum", 1.5)] ⟨32.2, 17, 15.2⟩ .mash
    (fun _ => none) (by with_unfolding_all decide) (by with_unfolding_all decide)
    (by with_unfolding_all decide)

/-- Counterexample to C5 as stated (for *every* volumes record): with a
negative mash volume, a positive gypsum addition *lowers* calcium below the
source level, even though the source profile and the gram amounts are
non-negative. -/
theorem C5_composer_monotone_counterexample :
    (⟨0, 0, 0, 0, 0, 0, none⟩ : WaterProfile).IonNonneg ∧ (0 : ℚ) ≤ 1.5 ∧
      (V1.calculateWaterProfileFromSalts ⟨0, 0, 0, 0, 0, 0, none⟩ [("gypsum", 1.5)]
          ⟨32.2, -17, 15.2⟩ .mash (fun _ => none)).calcium
        < (⟨0, 0, 0, 0, 0, 0, none⟩ : WaterProfile).calcium := by
  refine ⟨by with_unfolding_all decide, by with_unfolding_all decide, ?_⟩
  with_unfolding_all decide

end WaterChem

namespace WaterChem

/-! ## C6 — infeasible-target warning of the exact optimizer -/

/-- C6 (amended): the exact optimizer emits its infeasibility warning
whenever the target requires reducing calcium, sulfate or chloride below the
source level (it checks only these three of the six ions); it never throws
(it is a total function) and always returns its best result alongside the
warnings. -/
theorem C6_infeasibility_warning (input : Exact.ExactInput)
    (h : input.targetWater.calcium < input.sourceWater.calcium
      ∨ input.targetWater.sulfate < input.sourceWater.sulfate
      ∨ input.targetWater.chloride < input.sourceWater.chloride) :
    Exact.dilutionWarning ∈ (Exact.optimizeExact input).warnings := by
  have h' : (Exact.exactNeeded input).calcium < 0 ∨ (Exact.exactNeeded input).sulfate < 0
      ∨ (Exact.exactNeeded input).chloride < 0 := by
    rcases h with h | h | h
    · exact Or.inl (sub_neg.mpr h)
    · exact Or.inr (Or.inl (sub_neg.mpr h))
    · exact Or.inr (Or.inr (sub_neg.mpr h))
  simp only [Exact.optimizeExact]
  rw [if_pos h']
  simp

/-- Witness for C6: target calcium 5 below source calcium 10. -/
theorem C6_infeasibility_warning_witness :
    Exact.dilutionWarning ∈
      (Exact.optimizeExact
        { sourceWater := ⟨10, 0, 0, 0, 0, 0, none⟩
          targetWater := ⟨5, 0, 0, 0, 0, 0, none⟩
          maxIterations := 5
          allowedSalts := some [] }).warnings :=
  C6_infeasibility_warning _ (Or.inl (by norm_num))

/-- Counterexample to C6 as stated (for *any* of the six ions): a target
that requires reducing magnesium below the source level produces no warning
at all — the optimizer only checks calcium, sulfate and chloride. -/
theorem C6_infeasibility_warning_counterexample :
    (5 : ℚ) < 10
      ∧ (Exact.optimizeExact
          { sourceWater := ⟨0, 10, 0, 0, 0, 0, none⟩
            targetWater := ⟨0, 5, 0, 0, 0, 0, none⟩
            maxIterations := 5
            allowedSalts := some [] }).warnings = []
      ∧ Exact.dilutionWarning ∉
        (Exact.optimizeExact
          { sourceWater := ⟨0, 10, 0, 0, 0, 0, none⟩
            targetWater := ⟨0, 5, 0, 0, 0, 0, none⟩
            maxIterations := 5
            allowedSalts := some [] }).warnings := by
  refine ⟨by norm_num, ?_, ?_⟩ <;> with_unfolding_all decide

end WaterChem

namespace WaterChem

/-! ## C7 — rounding and dropping of optimizer gram amounts -/

/-- Every entry surviving the exact optimizer's round-and-drop pass is at
least 0.1 g and is a one-decimal rounding of some best amount. -/
theorem exact_salts_entry {names : List String} {f : String → ℚ} {p : String × ℚ}
    (hp : p ∈ (names.map (fun n => (n, roundTenth (f n)))).filter
        (fun q => decide (¬ q.2 < 0.1))) :
    0.1 ≤ p.2 ∧ ∃ n, p.2 = roundTenth (f n) := by
  rcases List.mem_filter.mp hp with ⟨hmem, hq⟩
  have hlt : ¬ p.2 < 0.1 := of_decide_eq_true hq
  rcases List.mem_map.mp hmem with ⟨n, _, rfl⟩
  exact ⟨not_lt.mp hlt, n, rfl⟩

/-- The amount a balanced-optimizer pass records — 80 % of a
most-constraining amount above 0.1 g, capped at 10 g, rounded to one
decimal — is a one-decimal multiple of at least 0.1 g. -/
theorem balanced_amount_ok {x : ℚ} (hx : (0.1 : ℚ) < x) :
    (0.1 : ℚ) ≤ roundTenth (min (x * 0.8) 10) ∧ IsTenth (roundTenth (min (x * 0.8) 10)) := by
  constructor
  · have h1 : (1 : ℚ)/20 ≤ min (x * 0.8) 10 := le_min (by nlinarith) (by norm_num)
    have h2 := roundTenth_ge_tenth h1
    have h3 : (0.1 : ℚ) = 1/10 := by norm_num
    rw [h3]
    exact h2
  · exact roundTenth_isTenth _

/-- Entries appended by one balanced-optimizer salt pass are ≥ 0.1 g
one-decimal multiples. -/
theorem Balanced.processSalt_entries {st : Balanced.BalState} {n : String}
    (hst : ∀ p ∈ st.saltAdditions, 0.1 ≤ p.2 ∧ IsTenth p.2) :
    ∀ p ∈ (Balanced.processSalt st n).saltAdditions, 0.1 ≤ p.2 ∧ IsTenth p.2 := by
  intro p hp
  unfold Balanced.processSalt at hp
  rcases hfind : findSalt n with _ | salt
  · rw [hfind] at hp
    exact hst p hp
  · rw [hfind] at hp
    simp only at hp
    split at hp
    · next hcond =>
      simp only [List.mem_append, List.mem_singleton] at hp
      rcases hp with hp | rfl
      · exact hst p hp
      · exact balanced_amount_ok hcond.2
    · exact hst p hp

end WaterChem

namespace WaterChem

theorem Balanced.balLoop_entries (maxSalts : ℕ) :
    ∀ (l : List String) (st : Balanced.BalState),
      (∀ p ∈ st.saltAdditions, 0.1 ≤ p.2 ∧ IsTenth p.2) →
      ∀ p ∈ (Balanced.balLoop maxSalts l st).saltAdditions, 0.1 ≤ p.2 ∧ IsTenth p.2
  | [], _, hst => hst
  | n :: rest, st, hst => by
    unfold Balanced.balLoop
    split
    · exact hst
    · exact Balanced.balLoop_entries maxSalts rest (Balanced.processSalt st n)
        (Balanced.processSalt_entries hst)

/-- Membership in a `MinSalts` record's entry list reduces to membership in
one of its three optional fields. -/
theorem Minimal.MinSalts.toList_ok (s : Minimal.MinSalts) (P : ℚ → Prop)
    (hg : ∀ v ∈ s.gypsum, P v) (hc : ∀ v ∈ s.calcium_chloride, P v)
    (hn : ∀ v ∈ s.sodium_chloride, P v) : ∀ p ∈ s.toList, P p.2 := by
  intro p hp
  simp only [Minimal.MinSalts.toList, List.mem_append, Option.mem_toList,
    Option.mem_map] at hp
  rcases hp with (⟨v, hv, rfl⟩ | ⟨v, hv, rfl⟩) | ⟨v, hv, rfl⟩
  · exact hg v hv
  · exact hc v hv
  · exact hn v hv

/-- Step 1 of the minimal optimizer stores nothing, or one rounded
non-negative gypsum amount, or one rounded non-negative calcium chloride
amount. -/
theorem Minimal.step1_choices (input : Minimal.MinimalInput) :
    (Minimal.step1 input).1 = {}
      ∨ (∃ x, 0 ≤ x ∧ (Minimal.step1 input).1
          = { gypsum := some (roundTenth x) : Minimal.MinSalts })
      ∨ (∃ x, 0 ≤ x ∧ (Minimal.step1 input).1
          = { calcium_chloride := some (roundTenth x) : Minimal.MinSalts }) := by
  unfold Minimal.step1
  dsimp only
  split_ifs with h1 h2
  · exact Or.inr (Or.inl
      ⟨(50 - input.sourceWater.calcium) / 232.5,
       div_nonneg (by linarith [h1.2]) (by norm_num), rfl⟩)
  · exact Or.inr (Or.inr
      ⟨(50 - input.sourceWater.calcium) / 272.6,
       div_nonneg (by linarith [h1.2]) (by norm_num), rfl⟩)
  · exact Or.inl rfl

set_option maxHeartbeats 1000000 in
/-- Step 2 of the minimal optimizer leaves the record unchanged, or
overwrites the gypsum entry, or the table-salt entry, with a rounded
non-negative amount. -/
theorem Minimal.step2_choices (input : Minimal.MinimalInput) (s : Minimal.MinSalts)
    (w : WaterProfile) :
    (Minimal.step2 input s w).1 = s
      ∨ (∃ x, 0 ≤ x ∧ (Minimal.step2 input s w).1 = { s with gypsum := some (roundTenth x) })
      ∨ (∃ x, 0 ≤ x ∧ (Minimal.step2 input s w).1
          = { s with sodium_chloride := some (roundTenth x) }) := by
  unfold Minimal.step2
  dsimp only
  by_cases hbudget : s.count < input.maxSalts
  · rw [if_pos hbudget]
    rcases input.targetStyle with _ | _ | _
    · -- hoppy
      dsimp only
      by_cases hcl : w.chloride > 0
      · rw [if_pos hcl]
        split_ifs with hr hs hg
        · refine Or.inr (Or.inl ⟨min ((w.chloride * 3 - w.sulfate) / 557.7) 5, ?_, rfl⟩)
          exact le_min (div_nonneg (by linarith [hs]) (by norm_num)) (by norm_num)
        all_goals exact Or.inl rfl
      · rw [if_neg hcl, if_neg (show ¬((999 : ℚ) < 3) by norm_num)]
        exact Or.inl rfl
    · -- balanced
      dsimp only
      by_cases hcl : w.chloride > 0
      · rw [if_pos hcl]
        split_ifs with hr1 hc1 hr2 hg2
        · refine Or.inr (Or.inr ⟨min ((w.sulfate - w.chloride) / 606.6) 1, ?_, rfl⟩)
          exact le_min (div_nonneg (by linarith [hc1.1]) (by norm_num)) (by norm_num)
        · exact Or.inl rfl
        · refine Or.inr (Or.inl ⟨min ((w.chloride - w.sulfate) / 557.7) 2, ?_, rfl⟩)
          have hlt : w.sulfate / w.chloride < 0.67 := hr2
          have hs : w.sulfate < 0.67 * w.chloride := (div_lt_iff₀ hcl).mp hlt
          exact le_min (div_nonneg (by nlinarith) (by norm_num)) (by norm_num)
        all_goals exact Or.inl rfl
      · rw [if_neg hcl, if_pos (show (999 : ℚ) > 1.5 by norm_num)]
        split_ifs with hc1
        · refine Or.inr (Or.inr ⟨min ((w.sulfate - w.chloride) / 606.6) 1, ?_, rfl⟩)
          exact le_min (div_nonneg (by linarith [hc1.1]) (by norm_num)) (by norm_num)
        · exact Or.inl rfl
    · -- malty
      dsimp only
      by_cases hcl : w.chloride > 0
      · rw [if_pos hcl]
        split_ifs with hr hc
        · refine Or.inr (Or.inr ⟨min ((w.sulfate * 2 - w.chloride) / 606.6) 2, ?_, rfl⟩)
          exact le_min (div_nonneg (by linarith [hc]) (by norm_num)) (by norm_num)
        all_goals exact Or.inl rfl
      · rw [if_neg hcl, if_pos (show (999 : ℚ) > 0.5 by norm_num)]
        split_ifs with hc
        · refine Or.inr (Or.inr ⟨min ((w.sulfate * 2 - w.chloride) / 606.6) 2, ?_, rfl⟩)
          exact le_min (div_nonneg (by linarith [hc]) (by norm_num)) (by norm_num)
        · exact Or.inl rfl
  · rw [if_neg hbudget]
    exact Or.inl rfl

/-- Every entry of the minimal optimizer's salt record is a non-negative
one-decimal multiple (it is never dropped, even when it rounds to 0.0). -/
theorem Minimal.salts_entries (input : Minimal.MinimalInput) :
    ∀ p ∈ (Minimal.optimizeMinimal input).salts, 0 ≤ p.2 ∧ IsTenth p.2 := by
  have good : ∀ x : ℚ, 0 ≤ x → 0 ≤ roundTenth x ∧ IsTenth (roundTenth x) :=
    fun x hx => ⟨roundTenth_nonneg hx, roundTenth_isTenth x⟩
  have fieldsOK : ∀ s : Minimal.MinSalts,
      (∀ v ∈ s.gypsum, 0 ≤ v ∧ IsTenth v) → (∀ v ∈ s.calcium_chloride, 0 ≤ v ∧ IsTenth v) →
      (∀ v ∈ s.sodium_chloride, 0 ≤ v ∧ IsTenth v) →
      ∀ p ∈ s.toList, 0 ≤ p.2 ∧ IsTenth p.2 :=
    fun s => Minimal.MinSalts.toList_ok s (fun v => 0 ≤ v ∧ IsTenth v)
  have h1 : (∀ v ∈ (Minimal.step1 input).1.gypsum, 0 ≤ v ∧ IsTenth v)
      ∧ (∀ v ∈ (Minimal.step1 input).1.calcium_chloride, 0 ≤ v ∧ IsTenth v)
      ∧ (∀ v ∈ (Minimal.step1 input).1.sodium_chloride, 0 ≤ v ∧ IsTenth v) := by
    rcases Minimal.step1_choices input with h | ⟨x, hx, h⟩ | ⟨x, hx, h⟩ <;> rw [h] <;>
      refine ⟨?_, ?_, ?_⟩ <;> intro v hv <;> simp at hv <;>
      (subst hv; exact good x hx)
  intro p hp
  have hp2 : p ∈ (Minimal.step2 input (Minimal.step1 input).1
      (Minimal.step1 input).2).1.toList := hp
  rcases Minimal.step2_choices input (Minimal.step1 input).1 (Minimal.step1 input).2 with
    h | ⟨x, hx, h⟩ | ⟨x, hx, h⟩ <;> rw [h] at hp2
  · exact fieldsOK _ h1.1 h1.2.1 h1.2.2 p hp2
  · refine Minimal.MinSalts.toList_ok
      { (Minimal.step1 input).1 with gypsum := some (roundTenth x) }
      (fun v => 0 ≤ v ∧ IsTenth v) ?_ ?_ ?_ p hp2
    · intro v hv
      simp only [Option.mem_def, Option.some.injEq] at hv
      subst hv
      exact good x hx
    · exact h1.2.1
    · exact h1.2.2
  · refine Minimal.MinSalts.toList_ok
      { (Minimal.step1 input).1 with sodium_chloride := some (roundTenth x) }
      (fun v => 0 ≤ v ∧ IsTenth v) ?_ ?_ ?_ p hp2
    · exact h1.1
    · exact h1.2.1
    · intro v hv
      simp only [Option.mem_def, Option.some.injEq] at hv
      subst hv
      exact good x hx

end WaterChem

namespace WaterChem

/-- C7 (amended): the exact optimizer's returned amounts are one-decimal
multiples of at least 0.1 g (entries below 0.1 g are deleted); the balanced
optimizer's amounts are one-decimal multiples that are ≥ 0.1 g by
construction (no drop step exists or is needed); the minimal optimizer
rounds to one decimal but has no drop step, so a non-negative entry of 0.0 g
can remain in the returned map. -/
theorem C7_optimizer_amount_rounding :
    (∀ (input : Exact.ExactInput) (p : String × ℚ),
        p ∈ (Exact.optimizeExact input).salts → 0.1 ≤ p.2 ∧ IsTenth p.2)
      ∧ (∀ (input : Balanced.BalancedInput) (p : String × ℚ),
          p ∈ (Balanced.optimizeBalanced input).salts → 0.1 ≤ p.2 ∧ IsTenth p.2)
      ∧ (∀ (input : Minimal.MinimalInput) (p : String × ℚ),
          p ∈ (Minimal.optimizeMinimal input).salts → 0 ≤ p.2 ∧ IsTenth p.2) := by
  refine ⟨?_, ?_, ?_⟩
  · intro input p hp
    obtain ⟨h1, n, hn⟩ := exact_salts_entry hp
    exact ⟨h1, hn ▸ roundTenth_isTenth _⟩
  · intro input p hp
    exact Balanced.balLoop_entries input.maxSalts Balanced.prioritySalts _
      (by intro q hq; exact absurd hq (List.not_mem_nil q)) p hp
  · intro input p hp
    exact Minimal.salts_entries input p hp

set_option maxRecDepth 10000 in
/-- Witness for C7: concrete runs of all three optimizers. -/
theorem C7_optimizer_amount_rounding_witness :
    ((0.1 : ℚ) ≤ (9 : ℚ)/5 ∧ IsTenth ((9 : ℚ)/5))
      ∧ ((0.1 : ℚ) ≤ (13 : ℚ)/5 ∧ IsTenth ((13 : ℚ)/5))
      ∧ ((0 : ℚ) ≤ (0 : ℚ) ∧ IsTenth (0 : ℚ)) :=
  ⟨C7_optimizer_amount_rounding.1
      { sourceWater := ⟨0, 0, 0, 0, 0, 0, none⟩
        targetWater := ⟨1000, 0, 0, 1000, 0, 0, none⟩
        maxIterations := 5
        allowedSalts := some ["gypsum"] }
      ("gypsum", (9 : ℚ)/5) (by with_unfolding_all decide),
   C7_optimizer_amount_rounding.2.1
      { sourceWater := ⟨0, 0, 0, 0, 0, 0, none⟩
        targetWater := ⟨0, 0, 0, 100, 0, 0, none⟩ }
      ("gypsum", (13 : ℚ)/5) (by with_unfolding_all decide),
   C7_optimizer_amount_rounding.2.2
      { sourceWater := ⟨45, 0, 0, 0, 0, 0, none⟩, targetStyle := .hoppy }
      ("gypsum", (0 : ℚ)) (by with_unfolding_all decide)⟩

/-- Counterexample to C7 as stated: the minimal optimizer, asked to fix the
calcium floor of a 45 ppm-calcium hoppy water, returns the entry
`gypsum: 0.0 g` (5/232.5 rounds to 0.0), which is below 0.1 g and is *not*
removed from the returned map. -/
theorem C7_optimizer_amount_rounding_counterexample :
    ("gypsum", (0 : ℚ)) ∈ (Minimal.optimizeMinimal
        { sourceWater := ⟨45, 0, 0, 0, 0, 0, none⟩, targetStyle := .hoppy }).salts
      ∧ (0 : ℚ) < 0.1 := by
  constructor
  · with_unfolding_all decide
  · norm_num

end WaterChem

namespace WaterChem

/-! ## C10 — the exact optimizer keeps amounts within `[0, maxSaltAmount]` -/

theorem setAmount_range {maxA : ℚ} {f : String → ℚ} (hf : AmountsInRange maxA f)
    {v : ℚ} (h0 : 0 ≤ v) (h1 : v ≤ maxA) (n : String) :
    AmountsInRange maxA (Exact.setAmount f n v) := by
  intro m
  unfold Exact.setAmount
  split
  · exact ⟨h0, h1⟩
  · exact hf m

theorem initialAmounts_range {needed : Exact.IonVec} {matrix : List Exact.SaltMatrixRow}
    {maxA : ℚ} (hmax : 0 ≤ maxA) :
    AmountsInRange maxA (Exact.initialAmounts needed matrix maxA) := by
  unfold Exact.initialAmounts
  refine foldl_preserve (AmountsInRange maxA) _ ?_ matrix _ (fun n => ⟨le_rfl, hmax⟩)
  intro f row hf
  dsimp only
  split
  · next hmc =>
    exact setAmount_range hf
      (le_min (by nlinarith) hmax) (min_le_right _ _) _
  · exact hf

/-- The dual range invariant on a loop state. -/
def LoopStateInRange (maxA : ℚ) (st : Exact.LoopState) : Prop :=
  AmountsInRange maxA st.amounts ∧ AmountsInRange maxA st.bestAmounts

theorem trySalt_range {src tgt : WaterProfile} {matrix : List Exact.SaltMatrixRow}
    {maxA stepSize : ℚ} (hstep : 0 < stepSize) (hmax : 0 ≤ maxA)
    {st : Exact.LoopState} (hst : LoopStateInRange maxA st) (row : Exact.SaltMatrixRow) :
    LoopStateInRange maxA (Exact.trySalt src tgt matrix maxA stepSize st row) := by
  unfold Exact.trySalt
  dsimp only
  have hinc0 : 0 ≤ min (st.amounts row.saltName + stepSize) maxA :=
    le_min (by linarith [(hst.1 row.saltName).1]) hmax
  have hinc1 : min (st.amounts row.saltName + stepSize) maxA ≤ maxA := min_le_right _ _
  have hst1 : LoopStateInRange maxA
      (if Exact.devLT ((Exact.calculateDeviation
          (Exact.calculateProfile src
            (Exact.setAmount st.amounts row.saltName
              (min (st.amounts row.saltName + stepSize) maxA)) matrix) tgt).2)
          st.bestDeviation = true then
        { st with
          amounts := Exact.setAmount st.amounts row.saltName
            (min (st.amounts row.saltName + stepSize) maxA)
          bestAmounts := Exact.setAmount st.amounts row.saltName
            (min (st.amounts row.saltName + stepSize) maxA)
          bestDeviation := some ((Exact.calculateDeviation
            (Exact.calculateProfile src
              (Exact.setAmount st.amounts row.saltName
                (min (st.amounts row.saltName + stepSize) maxA)) matrix) tgt).2) }
      else st) := by
    split
    · exact ⟨setAmount_range hst.1 hinc0 hinc1 _, setAmount_range hst.1 hinc0 hinc1 _⟩
    · exact hst
  generalize hst1eq : (if _ = true then _ else st) = st1 at hst1 ⊢
  split
  · next hcur =>
    have h0 : 0 ≤ st1.amounts row.saltName - stepSize := by linarith
    have h1 : st1.amounts row.saltName - stepSize ≤ maxA := by
      have := (hst1.1 row.saltName).2
      linarith
    split
    · exact ⟨setAmount_range hst1.1 h0 h1 _, setAmount_range hst1.1 h0 h1 _⟩
    · exact hst1
  · exact hst1

end WaterChem

namespace WaterChem

theorem iterOnce_range {src tgt : WaterProfile} {matrix : List Exact.SaltMatrixRow}
    {maxA stepSize : ℚ} (hstep : 0 < stepSize) (hmax : 0 ≤ maxA)
    {st : Exact.LoopState} (hst : LoopStateInRange maxA st) :
    LoopStateInRange maxA (Exact.iterOnce src tgt matrix maxA stepSize st) := by
  unfold Exact.iterOnce
  refine foldl_preserve (LoopStateInRange maxA) _ ?_ matrix _ ⟨hst.1, hst.2⟩
  intro a b ha
  exact trySalt_range hstep hmax ha b

theorem iterLoop_range {src tgt : WaterProfile} {matrix : List Exact.SaltMatrixRow}
    {maxA stepSize tol : ℚ} (hstep : 0 < stepSize) (hmax : 0 ≤ maxA) :
    ∀ (n : ℕ) (st : Exact.LoopState), LoopStateInRange maxA st →
      LoopStateInRange maxA (Exact.iterLoop src tgt matrix maxA stepSize tol n st)
  | 0, _, hst => hst
  | Nat.succ n, st, hst => by
    unfold Exact.iterLoop
    dsimp only
    have h' : LoopStateInRange maxA (Exact.iterOnce src tgt matrix maxA stepSize st) :=
      iterOnce_range hstep hmax hst
    rcases hb : (Exact.iterOnce src tgt matrix maxA stepSize st).bestDeviation with _ | d <;>
      dsimp only
    · exact iterLoop_range hstep hmax n _ h'
    · split
      · exact h'
      · exact iterLoop_range hstep hmax n _ h'

theorem exactFinalState_range (input : Exact.ExactInput)
    (hmax : 0 ≤ input.maxSaltAmount) :
    LoopStateInRange input.maxSaltAmount (Exact.exactFinalState input) := by
  unfold Exact.exactFinalState
  refine foldl_preserve_mem (LoopStateInRange input.maxSaltAmount) _ Exact.stepSizes _ ?_
    ⟨initialAmounts_range hmax, fun n => ⟨le_rfl, hmax⟩⟩
  intro s hs st hst
  have hspos : 0 < s := by
    fin_cases hs <;> norm_num
  exact iterLoop_range hspos hmax _ st hst

end WaterChem

namespace WaterChem

/-- C10 (amended): under a non-negative `maxSaltAmount`, the initial guess
and every ±step adjustment keep each working and best amount within
`[0, maxSaltAmount]` (the `LoopStateInRange` invariant above); consequently
every returned amount is non-negative and at most `maxSaltAmount + 0.05`,
and is at most `maxSaltAmount` itself whenever `maxSaltAmount` is a whole
number of tenths of a gram (in particular for the default 10 g). -/
theorem C10_exact_amount_bounds (input : Exact.ExactInput)
    (hmax : 0 ≤ input.maxSaltAmount) :
    ∀ p ∈ (Exact.optimizeExact input).salts,
      0 ≤ p.2 ∧ p.2 ≤ input.maxSaltAmount + 1/20
        ∧ ((input.maxSaltAmount * 10).den = 1 → p.2 ≤ input.maxSaltAmount) := by
  intro p hp
  obtain ⟨h1, n, hn⟩ := exact_salts_entry hp
  have hb := (exactFinalState_range input hmax).2 n
  refine ⟨le_trans (by norm_num) h1, ?_, ?_⟩
  · rw [hn]
    exact roundTenth_le_add hb.2
  · intro hden
    rw [hn]
    exact roundTenth_le_of_den_one hb.2 hden

set_option maxRecDepth 10000 in
/-- Witness for C10 with the default 10 g cap. -/
theorem C10_exact_amount_bounds_witness :
    0 ≤ (9 : ℚ)/5 ∧ (9 : ℚ)/5 ≤ 10 + 1/20
      ∧ (((10 : ℚ) * 10).den = 1 → (9 : ℚ)/5 ≤ 10) :=
  C10_exact_amount_bounds
    { sourceWater := ⟨0, 0, 0, 0, 0, 0, none⟩
      targetWater := ⟨1000, 0, 0, 1000, 0, 0, none⟩
      maxIterations := 5
      allowedSalts := some ["gypsum"] }
    (by norm_num) ("gypsum", (9 : ℚ)/5) (by with_unfolding_all decide)

set_option maxRecDepth 10000 in
/-- Counterexample to C10 as stated: with `maxSaltAmount = 0.16 g` the loop
caps the amount at exactly 0.16 g, but the final rounding returns
`gypsum: 0.2 g`, above the cap. -/
theorem C10_exact_amount_bounds_counterexample :
    ("gypsum", (1 : ℚ)/5) ∈ (Exact.optimizeExact
        { sourceWater := ⟨0, 0, 0, 0, 0, 0, none⟩
          targetWater := ⟨1000, 0, 0, 1000, 0, 0, none⟩
          maxIterations := 5
          allowedSalts := some ["gypsum"]
          maxSaltAmount := 0.16 }).salts
      ∧ (0.16 : ℚ) < 1/5 := by
  constructor
  · with_unfolding_all decide
  · norm_num

end WaterChem

namespace WaterChem

/-! ## C3 — ranges of the three pH estimators -/

theorem simplePH_bounds {src : WaterProfile} {bill : List GrainBillItem} {th : ℚ} {p : ℚ}
    (hp : p ∈ SimpleModel.calculateSimplePH src bill th) : 4 ≤ p ∧ p ≤ 6.5 := by
  unfold SimpleModel.calculateSimplePH at hp
  simp only [Option.mem_def] at hp
  split_ifs at hp <;>
    simp only [Option.some.injEq, reduceCtorEq] at hp
  · subst hp
    have h := clampPH_bounds (SimpleModel.calculateDistilledWaterPH bill +
      SimpleModel.raPHShift (V1.calculateResidualAlkalinity src) th)
    exact ⟨by linarith [h.1], h.2⟩
  · subst hp
    norm_num
  · subst hp
    norm_num

theorem kaiserPH_bounds {src : WaterProfile} {bill : List GrainBillItem} {th temp : ℚ}
    {p : ℚ} (hp : p ∈ KaiserModel.calculateKaiserPH src bill th temp) :
    4 ≤ p ∧ p ≤ 6.5 := by
  unfold KaiserModel.calculateKaiserPH at hp
  simp only [Option.mem_def] at hp
  split_ifs at hp <;>
    simp only [Option.some.injEq, reduceCtorEq] at hp
  · subst hp
    norm_num
  · subst hp
    have h := clampPH_bounds (KaiserModel.temperatureCorrection (5.7 +
      ((KaiserModel.calculateEffectiveAlkalinity src * 0.02) * th -
          (bill.foldl (fun s g => s + KaiserModel.getMaltAcidity g * g.weight) 0) /
            totalWeight bill) /
        ((bill.foldl (fun s g => s + KaiserModel.getMaltBufferCapacity g * g.weight) 0) /
          totalWeight bill)) temp)
    exact ⟨by linarith [h.1], h.2⟩
  · subst hp
    norm_num
  · subst hp
    norm_num

end WaterChem

namespace WaterChem.AdvancedModel

theorem pow10_pos (x : ℝ) : 0 < pow10 x :=
  Real.rpow_pos_of_pos (by norm_num) x

theorem pow10_lt_pow10 {x y : ℝ} (h : x < y) : pow10 x < pow10 y := by
  unfold pow10
  exact (Real.rpow_lt_rpow_left_iff (by norm_num)).mpr h

theorem carbQ_anti {a c H1 H2 : ℝ} (ha : 0 < a) (hc : 0 < c) (h1 : 0 < H1)
    (h12 : H1 < H2) : carbQ a c H2 ≤ carbQ a c H1 := by
  have h2 : 0 < H2 := h1.trans h12
  unfold carbQ
  rw [div_le_div_iff₀ (by positivity) (by positivity)]
  have key : (H1 * a + 2 * c) * (H2 * H2 + H2 * a + c)
      - (H2 * a + 2 * c) * (H1 * H1 + H1 * a + c)
      = (H2 - H1) * (a * H1 * H2 + a * c + 2 * c * H1 + 2 * c * H2) := by ring
  nlinarith [mul_nonneg (sub_nonneg.mpr h12.le)
    (by positivity : (0 : ℝ) ≤ a * H1 * H2 + a * c + 2 * c * H1 + 2 * c * H2)]

theorem phosQ_anti {a b c H1 H2 : ℝ} (ha : 0 < a) (hb : 0 < b) (hc : 0 < c)
    (h1 : 0 < H1) (h12 : H1 < H2) : phosQ a b c H2 ≤ phosQ a b c H1 := by
  have h2 : 0 < H2 := h1.trans h12
  unfold phosQ
  rw [div_le_div_iff₀ (by positivity) (by positivity)]
  have key : (a * H1 * H1 + 2 * b * H1 + 3 * c) * (H2 * H2 * H2 + a * H2 * H2 + b * H2 + c)
      - (a * H2 * H2 + 2 * b * H2 + 3 * c) * (H1 * H1 * H1 + a * H1 * H1 + b * H1 + c)
      = (H2 - H1) * (a * H1 * H1 * H2 * H2 + a * b * H1 * H2
          + 2 * a * c * H1 + 2 * a * c * H2 + 2 * b * H1 * H1 * H2 + 2 * b * H1 * H2 * H2
          + b * c + 3 * c * H1 * H1 + 3 * c * H1 * H2 + 3 * c * H2 * H2) := by ring
  nlinarith [mul_nonneg (sub_nonneg.mpr h12.le)
    (by positivity : (0 : ℝ) ≤ a * H1 * H1 * H2 * H2 + a * b * H1 * H2
      + 2 * a * c * H1 + 2 * a * c * H2 + 2 * b * H1 * H1 * H2 + 2 * b * H1 * H2 * H2
      + b * c + 3 * c * H1 * H1 + 3 * c * H1 * H2 + 3 * c * H2 * H2)]

/-- The charge-balance residual, regrouped: fixed charges, the proton term,
the hydroxide term and the carbonate / phosphate charge fractions. -/
theorem chargeErrorAt_eq (w : WaterProfile) (gp I T pH : ℝ) :
    chargeErrorAt w gp I T pH
      = waterConst w + pow10 (-pH) - KwT T / pow10 (-pH)
        - ((w.bicarbonate : ℝ) / 61.02 / 1000) * carbQ (KaC1 T) (KaC1 T * KaC2 T) (pow10 (-pH))
        - gp * phosQ (KaP1 T) (KaP1 T * KaP2 T) (KaP1 T * KaP2 T * KaP3 T) (pow10 (-pH)) := by
  unfold chargeErrorAt solveCarbonateSystem solvePhosphateSystem waterConst carbQ phosQ
    KaC1 KaC2 KaP1 KaP2 KaP3 KwT
  dsimp only
  ring

theorem KaC1_pos (T : ℝ) : 0 < KaC1 T := pow10_pos _

theorem KaC2_pos (T : ℝ) : 0 < KaC2 T := pow10_pos _

theorem KaP1_pos (T : ℝ) : 0 < KaP1 T := pow10_pos _

theorem KaP2_pos (T : ℝ) : 0 < KaP2 T := pow10_pos _

theorem KaP3_pos (T : ℝ) : 0 < KaP3 T := pow10_pos _

theorem KwT_pos (T : ℝ) : 0 < KwT T :=
  mul_pos (pow10_pos _) (Real.exp_pos _)

theorem chargeError_strictAnti (w : WaterProfile) (gp I T : ℝ)
    (hbc : 0 ≤ (w.bicarbonate : ℝ)) (hgp : 0 ≤ gp) :
    StrictAnti (chargeErrorAt w gp I T) := by
  intro pH1 pH2 h
  rw [chargeErrorAt_eq, chargeErrorAt_eq]
  have hH : pow10 (-pH2) < pow10 (-pH1) := pow10_lt_pow10 (by linarith)
  have hH2 : 0 < pow10 (-pH2) := pow10_pos _
  have hH1 : 0 < pow10 (-pH1) := pow10_pos _
  have hOH : KwT T / pow10 (-pH1) ≤ KwT T / pow10 (-pH2) :=
    div_le_div_of_nonneg_left (KwT_pos T).le hH2 hH.le
  have hcarb : carbQ (KaC1 T) (KaC1 T * KaC2 T) (pow10 (-pH1))
      ≤ carbQ (KaC1 T) (KaC1 T * KaC2 T) (pow10 (-pH2)) :=
    carbQ_anti (KaC1_pos T) (mul_pos (KaC1_pos T) (KaC2_pos T)) hH2 hH
  have hphos : phosQ (KaP1 T) (KaP1 T * KaP2 T) (KaP1 T * KaP2 T * KaP3 T) (pow10 (-pH1))
      ≤ phosQ (KaP1 T) (KaP1 T * KaP2 T) (KaP1 T * KaP2 T * KaP3 T) (pow10 (-pH2)) :=
    phosQ_anti (KaP1_pos T) (mul_pos (KaP1_pos T) (KaP2_pos T))
      (mul_pos (mul_pos (KaP1_pos T) (KaP2_pos T)) (KaP3_pos T)) hH2 hH
  have hTCcarb := mul_le_mul_of_nonneg_left hcarb
    (show (0 : ℝ) ≤ (w.bicarbonate : ℝ) / 61.02 / 1000 from
      div_nonneg (div_nonneg hbc (by norm_num)) (by norm_num))
  have hgpphos := mul_le_mul_of_nonneg_left hphos hgp
  linarith

end WaterChem.AdvancedModel

namespace WaterChem

/-- A grain bill with non-negative weights has a non-negative total weight. -/
theorem totalWeight_nonneg (bill : List GrainBillItem)
    (hw : ∀ g ∈ bill, 0 ≤ g.weight) : 0 ≤ totalWeight bill := by
  unfold totalWeight
  refine foldl_preserve_mem (fun s => 0 ≤ s) (fun s g => s + g.weight) bill 0 ?_ le_rfl
  intro g hg x hx
  exact add_nonneg hx (hw g hg)

end WaterChem

namespace WaterChem.AdvancedModel

/-- Once the bisection has decided `chargeError > 0` at the first midpoint
5.5 and stored `minError = e 5.5 ≥ 1e-6`, every later midpoint lies below
5.5, so (for a strictly antitone residual) its error is larger than the
stored minimum: the best pH never moves off 5.5. -/
theorem bisectLoop_down (e : ℝ → ℝ) (hA : StrictAnti e) (h0 : 1e-6 ≤ e 5.5) :
    ∀ (n : ℕ) (hi : ℝ), hi ≤ 5.5 →
      bisectLoop e n 4 hi 5.5 (some (e 5.5)) = 5.5 := by
  intro n
  induction n with
  | zero => intro hi _; rfl
  | succ n ih =>
    intro hi hhi
    have hmid : (4 + hi) / 2 < 5.5 := by linarith
    have herr : e 5.5 < e ((4 + hi) / 2) := hA hmid
    have habs : |e ((4 + hi) / 2)| = e ((4 + hi) / 2) := abs_of_pos (by linarith)
    have hnb : ¬ |e ((4 + hi) / 2)| < e 5.5 := by
      rw [habs]; exact not_lt.mpr (by linarith)
    have hn1 : ¬ |e ((4 + hi) / 2)| < 1e-6 := by
      rw [habs]; exact not_lt.mpr (by linarith)
    have hpos : e ((4 + hi) / 2) > 0 := by linarith
    simp only [bisectLoop]
    rw [if_neg hn1, if_pos hpos]
    simp only [if_neg hnb]
    exact ih ((4 + hi) / 2) (by linarith)

/-- Symmetric fact for the branch `chargeError < 0` at the first midpoint:
later midpoints lie above 5.5 and their (negative) errors have larger
absolute value than the stored `|e 5.5| ≥ 1e-6`. -/
theorem bisectLoop_up (e : ℝ → ℝ) (hA : StrictAnti e) (h0 : e 5.5 ≤ -1e-6) :
    ∀ (n : ℕ) (lo : ℝ), 5.5 ≤ lo →
      bisectLoop e n lo 7 5.5 (some (-(e 5.5))) = 5.5 := by
  intro n
  induction n with
  | zero => intro lo _; rfl
  | succ n ih =>
    intro lo hlo
    have hmid : 5.5 < (lo + 7) / 2 := by linarith
    have herr : e ((lo + 7) / 2) < e 5.5 := hA hmid
    have habs : |e ((lo + 7) / 2)| = -e ((lo + 7) / 2) := abs_of_neg (by linarith)
    have hnb : ¬ |e ((lo + 7) / 2)| < -e 5.5 := by
      rw [habs]; exact not_lt.mpr (by linarith)
    have hn1 : ¬ |e ((lo + 7) / 2)| < 1e-6 := by
      rw [habs]; exact not_lt.mpr (by linarith)
    have hneg : ¬ e ((lo + 7) / 2) > 0 := not_lt.mpr (by linarith)
    simp only [bisectLoop]
    rw [if_neg hn1, if_neg hneg]
    simp only [if_neg hnb]
    exact ih ((lo + 7) / 2) (by linarith)

/-- The bisection direction of `solvePHIteratively` is inverted with respect
to its (strictly antitone) residual — `chargeError > 0` lowers `highPH`,
walking away from the root — so the best-seen pH is always the very first
midpoint `(4.0 + 7.0) / 2 = 5.5`. -/
theorem solvePHIteratively_eq (w : WaterProfile) (gp I T : ℝ)
    (hbc : 0 ≤ (w.bicarbonate : ℝ)) (hgp : 0 ≤ gp) (n : ℕ) :
    solvePHIteratively w gp I T n = 5.5 := by
  have hA : StrictAnti (chargeErrorAt w gp I T) :=
    chargeError_strictAnti w gp I T hbc hgp
  unfold solvePHIteratively
  cases n with
  | zero => rfl
  | succ n =>
    have h47 : ((4 : ℝ) + 7) / 2 = 5.5 := by norm_num
    simp only [bisectLoop]
    rw [h47]
    set e := chargeErrorAt w gp I T with he
    by_cases h1 : |e 5.5| < 1e-6
    · rw [if_pos h1, if_pos trivial]
    · rw [if_neg h1]
      by_cases h2 : e 5.5 > 0
      · rw [if_pos h2]
        simp only [if_pos trivial]
        rw [abs_of_pos h2]
        have h0 : 1e-6 ≤ e 5.5 := by
          have h1' := not_lt.mp h1
          rwa [abs_of_pos h2] at h1'
        exact bisectLoop_down e hA h0 n 5.5 le_rfl
      · rw [if_neg h2]
        simp only [if_pos trivial]
        have hle : e 5.5 ≤ 0 := le_of_not_lt h2
        rw [abs_of_nonpos hle]
        have h0 : e 5.5 ≤ -1e-6 := by
          have h1' := not_lt.mp h1
          rw [abs_of_nonpos hle] at h1'
          linarith
        exact bisectLoop_up e hA h0 n 5.5 le_rfl

/-- For a chemically meaningful input (non-negative bicarbonate, mash
thickness and grain weights) the advanced model always returns pH 5.5. -/
theorem calculateAdvancedPH_eq (src : WaterProfile) (bill : List GrainBillItem)
    (th temp : ℚ) (iters : ℕ) (hbc : 0 ≤ src.bicarbonate) (hth : 0 ≤ th)
    (hw : ∀ g ∈ bill, 0 ≤ g.weight) :
    calculateAdvancedPH src bill th temp iters = 5.5 := by
  have htw : (0 : ℝ) ≤ ((totalWeight bill : ℚ) : ℝ) := by
    exact_mod_cast totalWeight_nonneg bill hw
  have hth' : (0 : ℝ) ≤ ((th : ℚ) : ℝ) := by exact_mod_cast hth
  simp only [calculateAdvancedPH]
  exact solvePHIteratively_eq src _ _ _ (by exact_mod_cast hbc)
    (div_nonneg (mul_nonneg htw (by norm_num)) (mul_nonneg htw hth')) iters

end WaterChem.AdvancedModel

namespace WaterChem

/-- **C3**: whenever the simple or Kaiser estimator produces a (finite)
value it lies in `[4, 6.5]`, and for non-negative bicarbonate, mash
thickness and grain weights the advanced estimator's value lies in
`[4, 6.5]` (indeed it is always 5.5).  The corrected part is that the
simple and Kaiser estimators do not always produce a value: see the
counterexample, where the Kaiser model divides 0 by 0 (`NaN`). -/
theorem C3_ph_clamp :
    (∀ (src : WaterProfile) (bill : List GrainBillItem) (th p : ℚ),
        p ∈ SimpleModel.calculateSimplePH src bill th → 4 ≤ p ∧ p ≤ 6.5)
    ∧ (∀ (src : WaterProfile) (bill : List GrainBillItem) (th temp p : ℚ),
        p ∈ KaiserModel.calculateKaiserPH src bill th temp → 4 ≤ p ∧ p ≤ 6.5)
    ∧ (∀ (src : WaterProfile) (bill : List GrainBillItem) (th temp : ℚ) (iters : ℕ),
        0 ≤ src.bicarbonate → 0 ≤ th → (∀ g ∈ bill, 0 ≤ g.weight) →
        4 ≤ AdvancedModel.calculateAdvancedPH src bill th temp iters
          ∧ AdvancedModel.calculateAdvancedPH src bill th temp iters ≤ 6.5) := by
  refine ⟨?_, ?_, ?_⟩
  · intro src bill th p hp
    exact simplePH_bounds hp
  · intro src bill th temp p hp
    exact kaiserPH_bounds hp
  · intro src bill th temp iters hbc hth hw
    rw [AdvancedModel.calculateAdvancedPH_eq src bill th temp iters hbc hth hw]
    norm_num

/-- Concrete instance of C3: distilled water with an empty grain bill gives
pH 5.7 (simple), 5.4 (Kaiser) and a value in range (advanced). -/
theorem C3_ph_clamp_witness :
    (SimpleModel.calculateSimplePH ⟨0, 0, 0, 0, 0, 0, none⟩ [] 3 = some (57/10)
        ∧ (4 ≤ (57/10 : ℚ) ∧ (57/10 : ℚ) ≤ 6.5))
    ∧ (KaiserModel.calculateKaiserPH ⟨0, 0, 0, 0, 0, 0, none⟩ [] 3 65 = some (27/5)
        ∧ (4 ≤ (27/5 : ℚ) ∧ (27/5 : ℚ) ≤ 6.5))
    ∧ ((0 : ℚ) ≤ (0 : ℚ) ∧ (0 : ℚ) ≤ (3 : ℚ)
        ∧ 4 ≤ AdvancedModel.calculateAdvancedPH ⟨0, 0, 0, 0, 0, 0, none⟩ [] 3 65 100
        ∧ AdvancedModel.calculateAdvancedPH ⟨0, 0, 0, 0, 0, 0, none⟩ [] 3 65 100 ≤ 6.5) := by
  refine ⟨⟨by with_unfolding_all decide, ?_⟩, ⟨by with_unfolding_all decide, ?_⟩,
    by norm_num, by norm_num, ?_⟩
  · exact C3_ph_clamp.1 ⟨0, 0, 0, 0, 0, 0, none⟩ [] 3 (57/10)
      (Option.mem_def.mpr (by with_unfolding_all decide))
  · exact C3_ph_clamp.2.1 ⟨0, 0, 0, 0, 0, 0, none⟩ [] 3 65 (27/5)
      (Option.mem_def.mpr (by with_unfolding_all decide))
  · exact C3_ph_clamp.2.2 ⟨0, 0, 0, 0, 0, 0, none⟩ [] 3 65 100 (by norm_num) (by norm_num)
      (by intro g hg; cases hg)

/-- bicarbonate 1525 ppm, 1 kg wheat malt plus 1 kg acidulated malt: the
buffer capacities (35 and −35) cancel, and the water charge (75) exactly
matches the malt acidity charge (75), so `calculateKaiserPH` computes the
JS expression `0 / 0 = NaN`, which `Math.max`/`Math.min` propagate: no pH
in `[4, 6.5]` is returned. -/
theorem C3_ph_clamp_counterexample :
    KaiserModel.calculateKaiserPH ⟨0, 0, 0, 0, 0, 1525, none⟩
      [⟨"wheat malt", 1, 0, .wheat⟩, ⟨"acidulated malt", 1, 0, .acidulated⟩] 3 65
      = none := by
  with_unfolding_all decide

end WaterChem
